import Mathlib

/- Verification development for the oura-cf worker (src/index.ts).

   The TypeScript source is shallowly embedded: pure helpers become Lean
   functions, the D1 store becomes explicit keyed maps, HTTP traffic becomes
   response oracles (functions from attempt or page index to a response), and
   every loop of the source becomes a structural recursion whose fuel matches
   the loop bound visible in the source.  JavaScript numbers are modelled as
   finite rationals plus a non-finite marker; machine floats are not needed by
   any of the verified properties. -/

namespace OuraCF

/-- JavaScript number value: a finite rational, or non-finite (NaN / Infinity). -/
inductive JsNum where
  | fin (q : ℚ)
  | nonfin
deriving DecidableEq

/-- Loosely typed value of a raw Oura payload field.  A missing (undefined)
property and a JSON null are conflated into `null`: every consumer in the
source (the coercions and the nullish coalescing) treats them identically. -/
inductive JVal where
  | null
  | num (n : JsNum)
  | str (s : List Char)
  | jbool (b : Bool)
deriving DecidableEq

/-- JavaScript whitespace characters (ASCII portion of the regex class). -/
def isJsSpace (c : Char) : Bool :=
  c = ' ' ∨ c = '\t' ∨ c = '\n' ∨ c = '\r' ∨ c = '\x0b' ∨ c = '\x0c'

/-- Decimal digit run to a natural number; `none` when empty or non-digit. -/
def parseDigits (l : List Char) : Option ℕ :=
  if l = [] then none
  else
    l.foldl
      (fun acc c =>
        match acc with
        | none => none
        | some a => if c.isDigit then some (a * 10 + (c.toNat - 48)) else none)
      (some 0)

/-- Unsigned decimal literal (digits, optional decimal point).  Mirrors the
shapes accepted by the JS `Number` conversion for plain decimal strings
(`"12"`, `"12.5"`, `".5"`, `"12."`); exponent and hex forms are out of scope
of the embedded behaviours and map to `none` (treated like NaN, which the
source in turn coerces to null). -/
def parseUnsigned (l : List Char) : Option ℚ :=
  let ip := l.takeWhile (fun c => c ≠ '.')
  match l.dropWhile (fun c => c ≠ '.') with
  | [] => (parseDigits ip).map (fun n => (n : ℚ))
  | _ :: fp =>
    if fp.any (fun c => c = '.') then none
    else if ip = [] ∧ fp = [] then none
    else
      match (if ip = [] then some 0 else parseDigits ip),
            (if fp = [] then some 0 else parseDigits fp) with
      | some i, some f => some ((i : ℚ) + (f : ℚ) / (10 : ℚ) ^ fp.length)
      | _, _ => none

/-- JS `Number(string)`: trimmed empty string is 0; otherwise an optional sign
followed by a decimal literal; anything else is NaN (`none`). -/
def parseNumber (s : List Char) : Option ℚ :=
  let t := ((s.dropWhile (fun c => isJsSpace c)).reverse.dropWhile
      (fun c => isJsSpace c)).reverse
  if t = [] then some 0
  else
    match t with
    | '-' :: r => (parseUnsigned r).map (fun q => -q)
    | '+' :: r => parseUnsigned r
    | r => parseUnsigned r

/-- JS `Math.round`: half-up toward positive infinity. -/
def jsRound (q : ℚ) : ℤ := Int.floor (q + 1 / 2)

/-- Source `toInt`: finite numbers round; numeric-looking strings parse and
round; everything else becomes null (`none`). -/
def toInt : JVal → Option ℤ
  | .num (.fin q) => some (jsRound q)
  | .str s =>
    match parseNumber s with
    | some q => some (jsRound q)
    | none => none
  | _ => none

/-- Source `toReal`: finite numbers pass through; numeric-looking strings
parse; everything else becomes null (`none`). -/
def toReal : JVal → Option ℚ
  | .num (.fin q) => some q
  | .str s => parseNumber s
  | _ => none

/-- Value stored in a D1 column. -/
inductive SqlVal where
  | vnull
  | vint (i : ℤ)
  | vreal (q : ℚ)
  | vtext (s : List Char)
deriving DecidableEq

/-- D1 parameter binding of an `Option ℤ` (the result of `toInt`). -/
def bindOptInt : Option ℤ → SqlVal
  | some i => .vint i
  | none => .vnull

/-- D1 parameter binding of an `Option ℚ` (the result of `toReal`). -/
def bindOptReal : Option ℚ → SqlVal
  | some q => .vreal q
  | none => .vnull

/-- D1 parameter binding of a raw JS value. -/
def bindJVal : JVal → SqlVal
  | .null => .vnull
  | .num (.fin q) => .vreal q
  | .num .nonfin => .vnull
  | .str s => .vtext s
  | .jbool b => .vint (cond b 1 0)

/-- Nullish coalescing `a ?? b` on raw values (null/undefined both `null`). -/
def jOrElse (a b : JVal) : JVal :=
  match a with
  | .null => b
  | v => v

/-- Observable outcome of `fetchWithRetry`: how many requests were issued, the
status of the response finally returned, and the backoff delays slept. -/
structure FetchResult where
  attemptsMade : ℕ
  status : ℕ
  delays : List ℕ
deriving DecidableEq

/-- Loop body of `fetchWithRetry`.  `responses i` is the HTTP status of the
`i`-th request; `attempt` is the source's counter value before the increment
(equal to the index of the request being issued); `budget` is
`maxRetries - attempt`, so `budget = 0` means the increment would exceed
`maxRetries` and the failing response is returned without sleeping. -/
def fwrLoop (responses : ℕ → ℕ) (attempt : ℕ) : ℕ → FetchResult
  | 0 => ⟨1, responses attempt, []⟩
  | b + 1 =>
    let s := responses attempt
    if s ≠ 429 ∧ s < 500 then ⟨1, s, []⟩
    else
      let rest := fwrLoop responses (attempt + 1) b
      ⟨rest.attemptsMade + 1, rest.status, (250 * 2 ^ (attempt + 1)) :: rest.delays⟩

/-- Source `fetchWithRetry(input, init, maxRetries)`: loops fetching until a
non-retriable status (anything other than 429 and ≥ 500) or the retry budget
is exhausted, sleeping `250 * 2 ^ attempt` ms between attempts.  The caller in
the source always uses the default `maxRetries = 3`. -/
def fetchWithRetry (responses : ℕ → ℕ) (maxRetries : ℕ) : FetchResult :=
  fwrLoop responses 0 maxRetries

lemma fwrLoop_attempts_pos (r : ℕ → ℕ) (a b : ℕ) : 1 ≤ (fwrLoop r a b).attemptsMade := by
  cases b with
  | zero => simp [fwrLoop]
  | succ b =>
    simp only [fwrLoop]
    split
    · dsimp only
      omega
    · dsimp only
      omega

lemma fwrLoop_retriable (r : ℕ → ℕ) (a b : ℕ) (h : ¬(r a ≠ 429 ∧ r a < 500)) :
    fwrLoop r a (b + 1) = ⟨(fwrLoop r (a + 1) b).attemptsMade + 1,
      (fwrLoop r (a + 1) b).status, (250 * 2 ^ (a + 1)) :: (fwrLoop r (a + 1) b).delays⟩ := by
  simp [fwrLoop, h]

lemma delays_shift (a m : ℕ) :
    250 * 2 ^ (a + 1) :: (List.range m).map (fun k => 250 * 2 ^ (a + 1 + k + 1)) =
      (List.range (m + 1)).map (fun k => 250 * 2 ^ (a + k + 1)) := by
  rw [List.range_succ_eq_map, List.map_cons, List.map_map]
  congr 1
  refine List.map_congr_left ?_
  intro k _
  simp only [Function.comp_apply]
  congr 1
  congr 1
  omega

lemma fwrLoop_attempts_le (r : ℕ → ℕ) : ∀ b a, (fwrLoop r a b).attemptsMade ≤ b + 1 := by
  intro b
  induction b with
  | zero => intro a; simp [fwrLoop]
  | succ b ih =>
    intro a
    simp only [fwrLoop]
    split
    · dsimp only
      omega
    · dsimp only
      have := ih (a + 1)
      omega

lemma fwrLoop_status_last (r : ℕ → ℕ) :
    ∀ b a, (fwrLoop r a b).status = r (a + ((fwrLoop r a b).attemptsMade - 1)) := by
  intro b
  induction b with
  | zero => intro a; simp [fwrLoop]
  | succ b ih =>
    intro a
    simp only [fwrLoop]
    split
    · simp
    · dsimp only
      have h1 := fwrLoop_attempts_pos r (a + 1) b
      rw [Nat.add_sub_cancel, ih (a + 1)]
      congr 1
      omega

lemma fwrLoop_delays (r : ℕ → ℕ) :
    ∀ b a, (fwrLoop r a b).delays =
      (List.range ((fwrLoop r a b).attemptsMade - 1)).map (fun k => 250 * 2 ^ (a + k + 1)) := by
  intro b
  induction b with
  | zero => intro a; simp [fwrLoop]
  | succ b ih =>
    intro a
    simp only [fwrLoop]
    split
    · simp
    · dsimp only
      have h1 := fwrLoop_attempts_pos r (a + 1) b
      obtain ⟨m, hm⟩ : ∃ m, (fwrLoop r (a + 1) b).attemptsMade = m + 1 :=
        ⟨(fwrLoop r (a + 1) b).attemptsMade - 1, by omega⟩
      rw [ih (a + 1), hm]
      simp only [Nat.add_sub_cancel]
      exact delays_shift a m

lemma fwrLoop_all503 (r : ℕ → ℕ) (h : ∀ i, r i = 503) :
    ∀ b a, fwrLoop r a b = ⟨b + 1, 503,
      (List.range b).map (fun k => 250 * 2 ^ (a + k + 1))⟩ := by
  intro b
  induction b with
  | zero => intro a; simp [fwrLoop, h a]
  | succ b ih =>
    intro a
    have hc : ¬(r a ≠ 429 ∧ r a < 500) := by
      rw [h a]; omega
    rw [fwrLoop_retriable r a b hc, ih (a + 1)]
    dsimp only
    rw [delays_shift a b]

/-- Claim C2: for every request issued by the windowed fetcher, a 429 or ≥ 500
status triggers exponential-backoff retries (delays `250 * 2 ^ k` ms, doubling,
at most 3 retries); any other status — in particular every 2xx and every 4xx
other than 429 — is returned immediately with no retry; an endpoint that
always returns 503 receives exactly `1 + maxRetries = 4` attempts, after which
the last failing response is returned to the caller rather than thrown. -/
theorem C2_fetchWithRetry_retry_policy (responses : ℕ → ℕ) :
    (((200 ≤ responses 0 ∧ responses 0 < 300) ∨
        (400 ≤ responses 0 ∧ responses 0 < 500 ∧ responses 0 ≠ 429)) →
      fetchWithRetry responses 3 = ⟨1, responses 0, []⟩) ∧
    ((responses 0 = 429 ∨ 500 ≤ responses 0) →
      2 ≤ (fetchWithRetry responses 3).attemptsMade) ∧
    ((fetchWithRetry responses 3).attemptsMade ≤ 1 + 3) ∧
    ((fetchWithRetry responses 3).delays =
      (List.range ((fetchWithRetry responses 3).attemptsMade - 1)).map
        (fun k => 250 * 2 ^ (k + 1))) ∧
    ((fetchWithRetry responses 3).status =
      responses ((fetchWithRetry responses 3).attemptsMade - 1)) ∧
    ((∀ i, responses i = 503) →
      fetchWithRetry responses 3 = ⟨4, 503, [500, 1000, 2000]⟩) := by
  refine ⟨?_, ?_, ?_, ?_, ?_, ?_⟩
  · intro h
    have hne : responses 0 ≠ 429 ∧ responses 0 < 500 := by
      rcases h with ⟨h1, h2⟩ | ⟨h1, h2, h3⟩
      · exact ⟨by omega, by omega⟩
      · exact ⟨h3, h2⟩
    show fwrLoop responses 0 (2 + 1) = _
    rw [fwrLoop]
    simp [hne.1, hne.2]
  · intro h
    have hcond : ¬(responses 0 ≠ 429 ∧ responses 0 < 500) := by
      rcases h with h | h
      · intro hc; exact hc.1 h
      · intro hc; omega
    show 2 ≤ (fwrLoop responses 0 (2 + 1)).attemptsMade
    rw [fwrLoop_retriable responses 0 2 hcond]
    have h1 := fwrLoop_attempts_pos responses (0 + 1) 2
    dsimp only
    omega
  · exact fwrLoop_attempts_le responses 3 0
  · simpa using fwrLoop_delays responses 3 0
  · simpa using fwrLoop_status_last responses 3 0
  · intro h
    have hall := fwrLoop_all503 responses h 3 0
    show fwrLoop responses 0 3 = _
    rw [hall]
    norm_num [List.range_succ]

/-- Witness for C2 at concrete oracles: an always-503 endpoint gets exactly 4
attempts with delays 500/1000/2000 ms, and a constant-404 endpoint is returned
immediately. -/
theorem C2_fetchWithRetry_retry_policy_witness :
    fetchWithRetry (fun _ => 503) 3 = ⟨4, 503, [500, 1000, 2000]⟩ ∧
    fetchWithRetry (fun _ => 404) 3 = ⟨1, 404, []⟩ := by
  refine ⟨(C2_fetchWithRetry_retry_policy (fun _ => 503)).2.2.2.2.2 (fun _ => rfl), ?_⟩
  exact (C2_fetchWithRetry_retry_policy (fun _ => 404)).1 (by norm_num)

/-- Contributors object of a raw Oura record (union of the contributor field
names read by the daily_readiness / daily_sleep / daily_activity /
daily_resilience transforms).  A property the payload does not carry is
`JVal.null`. -/
structure Contribs where
  activity_balance : JVal
  body_temperature : JVal
  hrv_balance : JVal
  previous_day_activity : JVal
  previous_night : JVal
  recovery_index : JVal
  resting_heart_rate : JVal
  sleep_balance : JVal
  deep_sleep : JVal
  efficiency : JVal
  latency : JVal
  rem_sleep : JVal
  restfulness : JVal
  timing : JVal
  total_sleep : JVal
  meet_daily_targets : JVal
  move_every_hour : JVal
  recovery_time : JVal
  stay_active : JVal
  training_frequency : JVal
  training_volume : JVal
  sleep_recovery : JVal
  daytime_recovery : JVal
deriving DecidableEq

/-- The empty contributors object: `d?.contributors ?? {}` for a record
without contributors. -/
def emptyContribs : Contribs :=
  ⟨.null, .null, .null, .null, .null, .null, .null, .null, .null, .null, .null, .null,
   .null, .null, .null, .null, .null, .null, .null, .null, .null, .null, .null⟩

/-- Raw record of one Oura payload, as the union of every property the
`saveToD1` transforms read.  Optional chains of the source (`d.spo2_percentage
?.average`, `d.heart_rate?.average`, `d.readiness?.temperature_deviation`,
`d.tags?.[0]`) are flattened to one field each; a broken chain yields `null`,
which every consumer treats exactly like the source treats undefined. -/
structure RawRec where
  day : JVal
  score : JVal
  contributors : Option Contribs
  steps : JVal
  active_calories : JVal
  total_calories : JVal
  stress_high : JVal
  day_summary : JVal
  level : JVal
  spo2_percentage_average : JVal
  breathing_disturbance_index : JVal
  vascular_age : JVal
  vo2_max : JVal
  id : JVal
  bedtime_start : JVal
  bedtime_end : JVal
  type : JVal
  average_heart_rate : JVal
  lowest_heart_rate : JVal
  average_hrv : JVal
  average_breath : JVal
  readiness_temperature_deviation : JVal
  temperature_deviation : JVal
  deep_sleep_duration : JVal
  rem_sleep_duration : JVal
  light_sleep_duration : JVal
  awake_time : JVal
  timestamp : JVal
  bpm : JVal
  source : JVal
  start_datetime : JVal
  end_datetime : JVal
  activity : JVal
  sport : JVal
  intensity : JVal
  calories : JVal
  distance : JVal
  heart_rate_average : JVal
  mood : JVal
  tag_type_code : JVal
  tags_head : JVal
  comment : JVal
deriving DecidableEq

/-- Source `d?.contributors ?? {}`. -/
def contribsOf (d : RawRec) : Contribs := d.contributors.getD emptyContribs

/-- A raw record all of whose properties are absent. -/
def nullRec : RawRec :=
  ⟨.null, .null, none, .null, .null, .null, .null, .null, .null, .null, .null, .null,
   .null, .null, .null, .null, .null, .null, .null, .null, .null, .null, .null, .null,
   .null, .null, .null, .null, .null, .null, .null, .null, .null, .null, .null, .null,
   .null, .null, .null, .null, .null, .null⟩

/-- A row of the daily_summaries table (the `day` primary key is the map key,
not a row field). -/
structure DailyRow where
  readiness_score : SqlVal
  readiness_activity_balance : SqlVal
  readiness_body_temperature : SqlVal
  readiness_hrv_balance : SqlVal
  readiness_previous_day_activity : SqlVal
  readiness_previous_night_sleep : SqlVal
  readiness_recovery_index : SqlVal
  readiness_resting_heart_rate : SqlVal
  readiness_sleep_balance : SqlVal
  sleep_score : SqlVal
  sleep_deep_sleep : SqlVal
  sleep_efficiency : SqlVal
  sleep_latency : SqlVal
  sleep_rem_sleep : SqlVal
  sleep_restfulness : SqlVal
  sleep_timing : SqlVal
  sleep_total_sleep : SqlVal
  activity_score : SqlVal
  activity_steps : SqlVal
  activity_active_calories : SqlVal
  activity_total_calories : SqlVal
  activity_meet_daily_targets : SqlVal
  activity_move_every_hour : SqlVal
  activity_recovery_time : SqlVal
  activity_stay_active : SqlVal
  activity_training_frequency : SqlVal
  activity_training_volume : SqlVal
  stress_index : SqlVal
  resilience_level : SqlVal
  resilience_contributors_sleep : SqlVal
  resilience_contributors_stress : SqlVal
  spo2_percentage : SqlVal
  spo2_breathing_disturbance_index : SqlVal
  cv_age_offset : SqlVal
  vo2_max : SqlVal
  updated_at : SqlVal
deriving DecidableEq

/-- A freshly inserted daily_summaries row before any column is set: every
column takes its NULL default. -/
def emptyDailyRow : DailyRow :=
  ⟨.vnull, .vnull, .vnull, .vnull, .vnull, .vnull, .vnull, .vnull, .vnull, .vnull,
   .vnull, .vnull, .vnull, .vnull, .vnull, .vnull, .vnull, .vnull, .vnull, .vnull,
   .vnull, .vnull, .vnull, .vnull, .vnull, .vnull, .vnull, .vnull, .vnull, .vnull,
   .vnull, .vnull, .vnull, .vnull, .vnull, .vnull⟩

/-- A row of the sleep_episodes table (keyed by `id`). -/
structure SleepRow where
  day : SqlVal
  start_datetime : SqlVal
  end_datetime : SqlVal
  type : SqlVal
  heart_rate_avg : SqlVal
  heart_rate_lowest : SqlVal
  hrv_avg : SqlVal
  breath_avg : SqlVal
  temperature_deviation : SqlVal
  deep_duration : SqlVal
  rem_duration : SqlVal
  light_duration : SqlVal
  awake_duration : SqlVal
deriving DecidableEq

/-- A row of the heart_rate_samples table (keyed by `timestamp`). -/
structure HRRow where
  bpm : SqlVal
  source : SqlVal
deriving DecidableEq

/-- A row of the activity_logs table (keyed by `id`). -/
structure ActRow where
  type : SqlVal
  start_datetime : SqlVal
  end_datetime : SqlVal
  activity_label : SqlVal
  intensity : SqlVal
  calories : SqlVal
  distance : SqlVal
  hr_avg : SqlVal
  mood : SqlVal
deriving DecidableEq

/-- A row of the user_tags table (keyed by `id`). -/
structure TagRow where
  day : SqlVal
  tag_type : SqlVal
  comment : SqlVal
deriving DecidableEq

/-- The D1 store: one keyed map per table written by `saveToD1`. -/
structure Db where
  daily_summaries : SqlVal → Option DailyRow
  sleep_episodes : SqlVal → Option SleepRow
  heart_rate_samples : SqlVal → Option HRRow
  activity_logs : SqlVal → Option ActRow
  user_tags : SqlVal → Option TagRow

/-- Semantics of one `INSERT ... ON CONFLICT(key) DO UPDATE` statement:
insert `ins d` when the key is absent, otherwise update the existing row to
`upd d prev`. -/
def upsertStep {α R : Type} (key : α → SqlVal) (ins : α → R) (upd : α → R → R)
    (t : SqlVal → Option R) (d : α) : SqlVal → Option R :=
  Function.update t (key d)
    (some (match t (key d) with
      | none => ins d
      | some r => upd d r))

/-- Semantics of a `db.batch` of upsert statements, one per record, executed
in order. -/
def batchUpsert {α R : Type} (key : α → SqlVal) (ins : α → R) (upd : α → R → R)
    (l : List α) (t : SqlVal → Option R) : SqlVal → Option R :=
  l.foldl (upsertStep key ins upd) t

/-- One insert-or-update decision on the cell of a single key. -/
def mergeStep {α R : Type} (ins : α → R) (upd : α → R → R) (d : α) : Option R → R
  | none => ins d
  | some r => upd d r

/-- The per-key merge chain: what the batch does to the single cell holding
the records of one key, in order. -/
def mergeChain {α R : Type} (ins : α → R) (upd : α → R → R) :
    List α → Option R → Option R
  | [], o => o
  | d :: ds, o => mergeChain ins upd ds (some (mergeStep ins upd d o))

/-- Repeated update by a list of records. -/
def updRun {α R : Type} (upd : α → R → R) (l : List α) (r : R) : R :=
  l.foldl (fun acc d => upd d acc) r

section UpsertLemmas

variable {α R P : Type}

lemma batchUpsert_apply (key : α → SqlVal) (ins : α → R) (upd : α → R → R) :
    ∀ (l : List α) (t : SqlVal → Option R) (k : SqlVal),
      batchUpsert key ins upd l t k =
        mergeChain ins upd (l.filter (fun d => key d = k)) (t k) := by
  intro l
  induction l with
  | nil => intro t k; rfl
  | cons d ds ih =>
    intro t k
    show batchUpsert key ins upd ds (upsertStep key ins upd t d) k = _
    rw [ih]
    by_cases h : key d = k
    · subst h
      rw [List.filter_cons_of_pos (by simp)]
      show mergeChain ins upd _ (Function.update t (key d) _ (key d)) = _
      rw [Function.update_same]
      rfl
    · rw [List.filter_cons_of_neg (by simpa using h)]
      show mergeChain ins upd _ (Function.update t (key d) _ k) = _
      rw [Function.update_noteq (fun hk => h hk.symm)]

lemma mergeChain_some (ins : α → R) (upd : α → R → R) :
    ∀ (ds : List α) (r : R),
      mergeChain ins upd ds (some r) = some (updRun upd ds r) := by
  intro ds
  induction ds with
  | nil => intro r; rfl
  | cons d ds ih => intro r; exact ih (upd d r)

lemma updRun_othr (upd : α → R → R) (othr : R → P)
    (hothr : ∀ d r, othr (upd d r) = othr r) :
    ∀ (ds : List α) (r : R), othr (updRun upd ds r) = othr r := by
  intro ds
  induction ds with
  | nil => intro r; rfl
  | cons d ds ih =>
    intro r
    show othr (updRun upd ds (upd d r)) = othr r
    rw [ih, hothr]

lemma updRun_congr (upd : α → R → R) (othr : R → P)
    (hothr : ∀ d r, othr (upd d r) = othr r)
    (hcong : ∀ d r s, othr r = othr s → upd d r = upd d s) :
    ∀ (ds : List α) (d : α) (r s : R), othr r = othr s →
      updRun upd (d :: ds) r = updRun upd (d :: ds) s := by
  intro ds
  induction ds with
  | nil => intro d r s h; exact hcong d r s h
  | cons e ds ih =>
    intro d r s h
    show updRun upd (e :: ds) (upd d r) = updRun upd (e :: ds) (upd d s)
    exact ih e (upd d r) (upd d s) (by rw [hothr, hothr, h])

lemma mergeChain_idem (ins : α → R) (upd : α → R → R) (othr : R → P)
    (hothr : ∀ d r, othr (upd d r) = othr r)
    (hcong : ∀ d r s, othr r = othr s → upd d r = upd d s)
    (hins : ∀ d, upd d (ins d) = ins d)
    (l : List α) (o : Option R) :
    mergeChain ins upd l (mergeChain ins upd l o) = mergeChain ins upd l o := by
  cases l with
  | nil => rfl
  | cons d ds =>
    have hfix : upd d (mergeStep ins upd d o) = mergeStep ins upd d o := by
      cases o with
      | none => exact hins d
      | some r => exact hcong d _ _ (hothr d r)
    show mergeChain ins upd ds
        (some (mergeStep ins upd d (mergeChain ins upd ds (some (mergeStep ins upd d o))))) =
      mergeChain ins upd ds (some (mergeStep ins upd d o))
    generalize hS : mergeStep ins upd d o = s₁ at hfix ⊢
    rw [mergeChain_some, mergeChain_some]
    show some (updRun upd ds (upd d (updRun upd ds s₁))) = some (updRun upd ds s₁)
    cases ds with
    | nil =>
      show some (upd d s₁) = some s₁
      rw [hfix]
    | cons e ds2 =>
      refine congrArg some ?_
      refine updRun_congr upd othr hothr hcong ds2 e _ _ ?_
      rw [hothr, updRun_othr upd othr hothr]

end UpsertLemmas

lemma batchUpsert_idem {α R P : Type} (key : α → SqlVal) (ins : α → R) (upd : α → R → R)
    (othr : R → P)
    (hothr : ∀ d r, othr (upd d r) = othr r)
    (hcong : ∀ d r s, othr r = othr s → upd d r = upd d s)
    (hins : ∀ d, upd d (ins d) = ins d)
    (l : List α) (t : SqlVal → Option R) :
    batchUpsert key ins upd l (batchUpsert key ins upd l t) = batchUpsert key ins upd l t := by
  funext k
  rw [batchUpsert_apply, batchUpsert_apply]
  exact mergeChain_idem ins upd othr hothr hcong hins _ (t k)

/-- Abbreviation for binding `toInt(v)` as a statement parameter. -/
def tIv (v : JVal) : SqlVal := bindOptInt (toInt v)

/-- Abbreviation for binding `toReal(v)` as a statement parameter. -/
def tRv (v : JVal) : SqlVal := bindOptReal (toReal v)

/-- daily_readiness → daily_summaries, insert path: the listed readiness
columns plus updated_at; every other column takes its NULL default. -/
def readinessIns (now : SqlVal) (d : RawRec) : DailyRow :=
  { emptyDailyRow with
    readiness_score := tIv d.score,
    readiness_activity_balance := tIv (contribsOf d).activity_balance,
    readiness_body_temperature := tIv (contribsOf d).body_temperature,
    readiness_hrv_balance := tIv (contribsOf d).hrv_balance,
    readiness_previous_day_activity := tIv (contribsOf d).previous_day_activity,
    readiness_previous_night_sleep := tIv (contribsOf d).previous_night,
    readiness_recovery_index := tIv (contribsOf d).recovery_index,
    readiness_resting_heart_rate := tIv (contribsOf d).resting_heart_rate,
    readiness_sleep_balance := tIv (contribsOf d).sleep_balance,
    updated_at := now }

/-- daily_readiness ON CONFLICT(day) DO UPDATE path: exactly the readiness
columns and updated_at are set from the excluded row. -/
def readinessUpd (now : SqlVal) (d : RawRec) (prev : DailyRow) : DailyRow :=
  { prev with
    readiness_score := tIv d.score,
    readiness_activity_balance := tIv (contribsOf d).activity_balance,
    readiness_body_temperature := tIv (contribsOf d).body_temperature,
    readiness_hrv_balance := tIv (contribsOf d).hrv_balance,
    readiness_previous_day_activity := tIv (contribsOf d).previous_day_activity,
    readiness_previous_night_sleep := tIv (contribsOf d).previous_night,
    readiness_recovery_index := tIv (contribsOf d).recovery_index,
    readiness_resting_heart_rate := tIv (contribsOf d).resting_heart_rate,
    readiness_sleep_balance := tIv (contribsOf d).sleep_balance,
    updated_at := now }

/-- Masks the columns owned by the daily_readiness writer, for the framing
argument. -/
def readinessMask (r : DailyRow) : DailyRow :=
  { r with
    readiness_score := .vnull,
    readiness_activity_balance := .vnull,
    readiness_body_temperature := .vnull,
    readiness_hrv_balance := .vnull,
    readiness_previous_day_activity := .vnull,
    readiness_previous_night_sleep := .vnull,
    readiness_recovery_index := .vnull,
    readiness_resting_heart_rate := .vnull,
    readiness_sleep_balance := .vnull,
    updated_at := .vnull }

def saveDailyReadiness (now : SqlVal) (data : List RawRec) :
    (SqlVal → Option DailyRow) → SqlVal → Option DailyRow :=
  batchUpsert (fun d => bindJVal d.day) (readinessIns now) (readinessUpd now) data

/-- daily_sleep → daily_summaries, insert path. -/
def dailySleepIns (now : SqlVal) (d : RawRec) : DailyRow :=
  { emptyDailyRow with
    sleep_score := tIv d.score,
    sleep_deep_sleep := tIv (contribsOf d).deep_sleep,
    sleep_efficiency := tIv (contribsOf d).efficiency,
    sleep_latency := tIv (contribsOf d).latency,
    sleep_rem_sleep := tIv (contribsOf d).rem_sleep,
    sleep_restfulness := tIv (contribsOf d).restfulness,
    sleep_timing := tIv (contribsOf d).timing,
    sleep_total_sleep := tIv (contribsOf d).total_sleep,
    updated_at := now }

/-- daily_sleep ON CONFLICT(day) DO UPDATE path. -/
def dailySleepUpd (now : SqlVal) (d : RawRec) (prev : DailyRow) : DailyRow :=
  { prev with
    sleep_score := tIv d.score,
    sleep_deep_sleep := tIv (contribsOf d).deep_sleep,
    sleep_efficiency := tIv (contribsOf d).efficiency,
    sleep_latency := tIv (contribsOf d).latency,
    sleep_rem_sleep := tIv (contribsOf d).rem_sleep,
    sleep_restfulness := tIv (contribsOf d).restfulness,
    sleep_timing := tIv (contribsOf d).timing,
    sleep_total_sleep := tIv (contribsOf d).total_sleep,
    updated_at := now }

/-- Masks the columns owned by the daily_sleep writer. -/
def dailySleepMask (r : DailyRow) : DailyRow :=
  { r with
    sleep_score := .vnull,
    sleep_deep_sleep := .vnull,
    sleep_efficiency := .vnull,
    sleep_latency := .vnull,
    sleep_rem_sleep := .vnull,
    sleep_restfulness := .vnull,
    sleep_timing := .vnull,
    sleep_total_sleep := .vnull,
    updated_at := .vnull }

def saveDailySleep (now : SqlVal) (data : List RawRec) :
    (SqlVal → Option DailyRow) → SqlVal → Option DailyRow :=
  batchUpsert (fun d => bindJVal d.day) (dailySleepIns now) (dailySleepUpd now) data

/-- daily_activity → daily_summaries, insert path. -/
def dailyActivityIns (now : SqlVal) (d : RawRec) : DailyRow :=
  { emptyDailyRow with
    activity_score := tIv d.score,
    activity_steps := tIv d.steps,
    activity_active_calories := tIv d.active_calories,
    activity_total_calories := tIv d.total_calories,
    activity_meet_daily_targets := tIv (contribsOf d).meet_daily_targets,
    activity_move_every_hour := tIv (contribsOf d).move_every_hour,
    activity_recovery_time := tIv (contribsOf d).recovery_time,
    activity_stay_active := tIv (contribsOf d).stay_active,
    activity_training_frequency := tIv (contribsOf d).training_frequency,
    activity_training_volume := tIv (contribsOf d).training_volume,
    updated_at := now }

/-- daily_activity ON CONFLICT(day) DO UPDATE path. -/
def dailyActivityUpd (now : SqlVal) (d : RawRec) (prev : DailyRow) : DailyRow :=
  { prev with
    activity_score := tIv d.score,
    activity_steps := tIv d.steps,
    activity_active_calories := tIv d.active_calories,
    activity_total_calories := tIv d.total_calories,
    activity_meet_daily_targets := tIv (contribsOf d).meet_daily_targets,
    activity_move_every_hour := tIv (contribsOf d).move_every_hour,
    activity_recovery_time := tIv (contribsOf d).recovery_time,
    activity_stay_active := tIv (contribsOf d).stay_active,
    activity_training_frequency := tIv (contribsOf d).training_frequency,
    activity_training_volume := tIv (contribsOf d).training_volume,
    updated_at := now }

/-- Masks the columns owned by the daily_activity writer. -/
def dailyActivityMask (r : DailyRow) : DailyRow :=
  { r with
    activity_score := .vnull,
    activity_steps := .vnull,
    activity_active_calories := .vnull,
    activity_total_calories := .vnull,
    activity_meet_daily_targets := .vnull,
    activity_move_every_hour := .vnull,
    activity_recovery_time := .vnull,
    activity_stay_active := .vnull,
    activity_training_frequency := .vnull,
    activity_training_volume := .vnull,
    updated_at := .vnull }

def saveDailyActivity (now : SqlVal) (data : List RawRec) :
    (SqlVal → Option DailyRow) → SqlVal → Option DailyRow :=
  batchUpsert (fun d => bindJVal d.day) (dailyActivityIns now) (dailyActivityUpd now) data

/-- daily_stress → daily_summaries, insert path: binds
`toInt(d.stress_high ?? d.day_summary)`. -/
def dailyStressIns (now : SqlVal) (d : RawRec) : DailyRow :=
  { emptyDailyRow with
    stress_index := tIv (jOrElse d.stress_high d.day_summary),
    updated_at := now }

/-- daily_stress ON CONFLICT(day) DO UPDATE path. -/
def dailyStressUpd (now : SqlVal) (d : RawRec) (prev : DailyRow) : DailyRow :=
  { prev with
    stress_index := tIv (jOrElse d.stress_high d.day_summary),
    updated_at := now }

/-- Masks the columns owned by the daily_stress writer. -/
def dailyStressMask (r : DailyRow) : DailyRow :=
  { r with stress_index := .vnull, updated_at := .vnull }

def saveDailyStress (now : SqlVal) (data : List RawRec) :
    (SqlVal → Option DailyRow) → SqlVal → Option DailyRow :=
  batchUpsert (fun d => bindJVal d.day) (dailyStressIns now) (dailyStressUpd now) data

/-- daily_resilience → daily_summaries, insert path: binds `d.level ?? null`
raw, plus the two contributor integers. -/
def dailyResilienceIns (now : SqlVal) (d : RawRec) : DailyRow :=
  { emptyDailyRow with
    resilience_level := bindJVal (jOrElse d.level .null),
    resilience_contributors_sleep := tIv (contribsOf d).sleep_recovery,
    resilience_contributors_stress := tIv (contribsOf d).daytime_recovery,
    updated_at := now }

/-- daily_resilience ON CONFLICT(day) DO UPDATE path. -/
def dailyResilienceUpd (now : SqlVal) (d : RawRec) (prev : DailyRow) : DailyRow :=
  { prev with
    resilience_level := bindJVal (jOrElse d.level .null),
    resilience_contributors_sleep := tIv (contribsOf d).sleep_recovery,
    resilience_contributors_stress := tIv (contribsOf d).daytime_recovery,
    updated_at := now }

/-- Masks the columns owned by the daily_resilience writer. -/
def dailyResilienceMask (r : DailyRow) : DailyRow :=
  { r with
    resilience_level := .vnull,
    resilience_contributors_sleep := .vnull,
    resilience_contributors_stress := .vnull,
    updated_at := .vnull }

def saveDailyResilience (now : SqlVal) (data : List RawRec) :
    (SqlVal → Option DailyRow) → SqlVal → Option DailyRow :=
  batchUpsert (fun d => bindJVal d.day) (dailyResilienceIns now) (dailyResilienceUpd now) data

/-- daily_spo2 → daily_summaries, insert path: binds
`toReal(d.spo2_percentage?.average)` and `toInt(d.breathing_disturbance_index)`. -/
def dailySpo2Ins (now : SqlVal) (d : RawRec) : DailyRow :=
  { emptyDailyRow with
    spo2_percentage := tRv d.spo2_percentage_average,
    spo2_breathing_disturbance_index := tIv d.breathing_disturbance_index,
    updated_at := now }

/-- daily_spo2 ON CONFLICT(day) DO UPDATE path. -/
def dailySpo2Upd (now : SqlVal) (d : RawRec) (prev : DailyRow) : DailyRow :=
  { prev with
    spo2_percentage := tRv d.spo2_percentage_average,
    spo2_breathing_disturbance_index := tIv d.breathing_disturbance_index,
    updated_at := now }

/-- Masks the columns owned by the daily_spo2 writer. -/
def dailySpo2Mask (r : DailyRow) : DailyRow :=
  { r with
    spo2_percentage := .vnull,
    spo2_breathing_disturbance_index := .vnull,
    updated_at := .vnull }

def saveDailySpo2 (now : SqlVal) (data : List RawRec) :
    (SqlVal → Option DailyRow) → SqlVal → Option DailyRow :=
  batchUpsert (fun d => bindJVal d.day) (dailySpo2Ins now) (dailySpo2Upd now) data

/-- daily_cardiovascular_age → daily_summaries, insert path: binds
`toInt(d.vascular_age)`. -/
def cvAgeIns (now : SqlVal) (d : RawRec) : DailyRow :=
  { emptyDailyRow with cv_age_offset := tIv d.vascular_age, updated_at := now }

/-- daily_cardiovascular_age ON CONFLICT(day) DO UPDATE path. -/
def cvAgeUpd (now : SqlVal) (d : RawRec) (prev : DailyRow) : DailyRow :=
  { prev with cv_age_offset := tIv d.vascular_age, updated_at := now }

/-- Masks the columns owned by the daily_cardiovascular_age writer. -/
def cvAgeMask (r : DailyRow) : DailyRow :=
  { r with cv_age_offset := .vnull, updated_at := .vnull }

def saveCvAge (now : SqlVal) (data : List RawRec) :
    (SqlVal → Option DailyRow) → SqlVal → Option DailyRow :=
  batchUpsert (fun d => bindJVal d.day) (cvAgeIns now) (cvAgeUpd now) data

/-- vo2_max → daily_summaries, insert path: binds `toReal(d.vo2_max)`. -/
def vo2Ins (now : SqlVal) (d : RawRec) : DailyRow :=
  { emptyDailyRow with vo2_max := tRv d.vo2_max, updated_at := now }

/-- vo2_max ON CONFLICT(day) DO UPDATE path. -/
def vo2Upd (now : SqlVal) (d : RawRec) (prev : DailyRow) : DailyRow :=
  { prev with vo2_max := tRv d.vo2_max, updated_at := now }

/-- Masks the columns owned by the vo2_max writer. -/
def vo2Mask (r : DailyRow) : DailyRow :=
  { r with vo2_max := .vnull, updated_at := .vnull }

def saveVo2Max (now : SqlVal) (data : List RawRec) :
    (SqlVal → Option DailyRow) → SqlVal → Option DailyRow :=
  batchUpsert (fun d => bindJVal d.day) (vo2Ins now) (vo2Upd now) data

/-- sleep → sleep_episodes: on both the insert and the conflict path every
non-key column is set from the record, so one row builder serves both. -/
def sleepRowOf (d : RawRec) : SleepRow :=
  ⟨bindJVal d.day,
   bindJVal (jOrElse d.bedtime_start .null),
   bindJVal (jOrElse d.bedtime_end .null),
   bindJVal (jOrElse d.type .null),
   tRv d.average_heart_rate,
   tRv d.lowest_heart_rate,
   tRv d.average_hrv,
   tRv d.average_breath,
   tRv (jOrElse d.readiness_temperature_deviation d.temperature_deviation),
   tIv d.deep_sleep_duration,
   tIv d.rem_sleep_duration,
   tIv d.light_sleep_duration,
   tIv d.awake_time⟩

def saveSleep (data : List RawRec) :
    (SqlVal → Option SleepRow) → SqlVal → Option SleepRow :=
  batchUpsert (fun d => bindJVal d.id) sleepRowOf (fun d _ => sleepRowOf d) data

/-- heartrate → heart_rate_samples: row values bound for one sample. -/
def hrRowOf (d : RawRec) : HRRow :=
  ⟨tIv d.bpm, bindJVal (jOrElse d.source .null)⟩

/-- Records kept by the heartrate loop: `typeof d?.timestamp === 'string'`
and the string truthy (non-empty). -/
def hrKeep (d : RawRec) : Bool :=
  match d.timestamp with
  | .str s => s ≠ []
  | _ => false

/-- One iteration of the heartrate inner loop: skip records without a usable
timestamp, otherwise upsert keyed by the timestamp. -/
def hrStep (t : SqlVal → Option HRRow) (d : RawRec) : SqlVal → Option HRRow :=
  if hrKeep d then
    upsertStep (fun d => bindJVal d.timestamp) hrRowOf (fun d _ => hrRowOf d) t d
  else t

/-- The source's `for (let i = 0; i < data.length; i += BATCH_SIZE)` loop:
fold over 500-record chunks.  The fuel argument only bounds the number of
chunk iterations; `chunkedFoldl_eq` shows `length + 1` always suffices. -/
def chunkedFoldl {γ δ : Type} (f : δ → γ → δ) : ℕ → List γ → δ → δ
  | 0, _, acc => acc
  | _ + 1, [], acc => acc
  | fuel + 1, l, acc => chunkedFoldl f fuel (l.drop 500) ((l.take 500).foldl f acc)

def saveHeartrate (data : List RawRec) (t : SqlVal → Option HRRow) :
    SqlVal → Option HRRow :=
  chunkedFoldl hrStep (data.length + 1) data t

/-- workout → activity_logs, insert path: type is the literal 'workout' and
mood takes its NULL default. -/
def workoutIns (d : RawRec) : ActRow :=
  ⟨.vtext ("workout".toList),
   bindJVal (jOrElse d.start_datetime .null),
   bindJVal (jOrElse d.end_datetime .null),
   bindJVal (jOrElse d.activity (jOrElse d.sport .null)),
   bindJVal (jOrElse d.intensity .null),
   tRv d.calories,
   tRv d.distance,
   tRv d.average_heart_rate,
   .vnull⟩

/-- workout ON CONFLICT(id) DO UPDATE path: type and mood are not in the
update list and are preserved. -/
def workoutUpd (d : RawRec) (prev : ActRow) : ActRow :=
  { prev with
    start_datetime := bindJVal (jOrElse d.start_datetime .null),
    end_datetime := bindJVal (jOrElse d.end_datetime .null),
    activity_label := bindJVal (jOrElse d.activity (jOrElse d.sport .null)),
    intensity := bindJVal (jOrElse d.intensity .null),
    calories := tRv d.calories,
    distance := tRv d.distance,
    hr_avg := tRv d.average_heart_rate }

/-- Masks the columns owned by the workout writer's update path. -/
def workoutMask (r : ActRow) : ActRow :=
  { r with
    start_datetime := .vnull,
    end_datetime := .vnull,
    activity_label := .vnull,
    intensity := .vnull,
    calories := .vnull,
    distance := .vnull,
    hr_avg := .vnull }

def saveWorkout (data : List RawRec) :
    (SqlVal → Option ActRow) → SqlVal → Option ActRow :=
  batchUpsert (fun d => bindJVal d.id) workoutIns workoutUpd data

/-- session → activity_logs, insert path: type is the literal 'session';
intensity, calories and distance take their NULL defaults. -/
def sessionIns (d : RawRec) : ActRow :=
  ⟨.vtext ("session".toList),
   bindJVal (jOrElse d.start_datetime .null),
   bindJVal (jOrElse d.end_datetime .null),
   bindJVal (jOrElse d.type .null),
   .vnull,
   .vnull,
   .vnull,
   tRv d.heart_rate_average,
   bindJVal (jOrElse d.mood .null)⟩

/-- session ON CONFLICT(id) DO UPDATE path: type, intensity, calories and
distance are not in the update list and are preserved. -/
def sessionUpd (d : RawRec) (prev : ActRow) : ActRow :=
  { prev with
    start_datetime := bindJVal (jOrElse d.start_datetime .null),
    end_datetime := bindJVal (jOrElse d.end_datetime .null),
    activity_label := bindJVal (jOrElse d.type .null),
    hr_avg := tRv d.heart_rate_average,
    mood := bindJVal (jOrElse d.mood .null) }

/-- Masks the columns owned by the session writer's update path. -/
def sessionMask (r : ActRow) : ActRow :=
  { r with
    start_datetime := .vnull,
    end_datetime := .vnull,
    activity_label := .vnull,
    hr_avg := .vnull,
    mood := .vnull }

def saveSession (data : List RawRec) :
    (SqlVal → Option ActRow) → SqlVal → Option ActRow :=
  batchUpsert (fun d => bindJVal d.id) sessionIns sessionUpd data

/-- tag → user_tags: binds `d.day ?? null`,
`d.tag_type_code ?? d.tags?.[0] ?? null` and `d.comment ?? null`; every
non-key column is in the update list. -/
def tagRowOf (d : RawRec) : TagRow :=
  ⟨bindJVal (jOrElse d.day .null),
   bindJVal (jOrElse d.tag_type_code (jOrElse d.tags_head .null)),
   bindJVal (jOrElse d.comment .null)⟩

def saveTag (data : List RawRec) :
    (SqlVal → Option TagRow) → SqlVal → Option TagRow :=
  batchUpsert (fun d => bindJVal d.id) tagRowOf (fun d _ => tagRowOf d) data

/-- Source `saveToD1(env, endpoint, data)`: dispatch on the resource name;
the branch conditions are mutually exclusive string constants, so the source's
sequence of `if` statements is an if-chain.  Unknown resource names write
nothing. -/
def saveToD1 (now : SqlVal) (endpoint : String) (data : List RawRec) (db : Db) : Db :=
  if endpoint = "daily_readiness" then
    { db with daily_summaries := saveDailyReadiness now data db.daily_summaries }
  else if endpoint = "daily_sleep" then
    { db with daily_summaries := saveDailySleep now data db.daily_summaries }
  else if endpoint = "daily_activity" then
    { db with daily_summaries := saveDailyActivity now data db.daily_summaries }
  else if endpoint = "daily_stress" then
    { db with daily_summaries := saveDailyStress now data db.daily_summaries }
  else if endpoint = "daily_resilience" then
    { db with daily_summaries := saveDailyResilience now data db.daily_summaries }
  else if endpoint = "daily_spo2" then
    { db with daily_summaries := saveDailySpo2 now data db.daily_summaries }
  else if endpoint = "daily_cardiovascular_age" then
    { db with daily_summaries := saveCvAge now data db.daily_summaries }
  else if endpoint = "vo2_max" then
    { db with daily_summaries := saveVo2Max now data db.daily_summaries }
  else if endpoint = "sleep" then
    { db with sleep_episodes := saveSleep data db.sleep_episodes }
  else if endpoint = "heartrate" then
    { db with heart_rate_samples := saveHeartrate data db.heart_rate_samples }
  else if endpoint = "workout" then
    { db with activity_logs := saveWorkout data db.activity_logs }
  else if endpoint = "session" then
    { db with activity_logs := saveSession data db.activity_logs }
  else if endpoint = "tag" then
    { db with user_tags := saveTag data db.user_tags }
  else db

lemma cong_of_mask {α R : Type} (upd : α → R → R) (mask : R → R)
    (humask : ∀ d r, upd d (mask r) = upd d r) :
    ∀ d r s, mask r = mask s → upd d r = upd d s := by
  intro d r s h
  rw [← humask d r, h, humask d s]

lemma chunkedFoldl_eq {γ δ : Type} (f : δ → γ → δ) :
    ∀ (fuel : ℕ) (l : List γ) (acc : δ), l.length < fuel →
      chunkedFoldl f fuel l acc = l.foldl f acc := by
  intro fuel
  induction fuel with
  | zero => intro l acc h; omega
  | succ fuel ih =>
    intro l acc h
    cases l with
    | nil => rfl
    | cons x xs =>
      have hlen : ((x :: xs).drop 500).length < fuel := by
        simp only [List.length_drop, List.length_cons] at h ⊢
        omega
      show chunkedFoldl f fuel ((x :: xs).drop 500) (((x :: xs).take 500).foldl f acc) = _
      rw [ih _ _ hlen, ← List.foldl_append, List.take_append_drop]

lemma foldl_if_filter {γ δ : Type} (p : γ → Bool) (g : δ → γ → δ) :
    ∀ (l : List γ) (acc : δ),
      l.foldl (fun t d => if p d then g t d else t) acc = (l.filter p).foldl g acc := by
  intro l
  induction l with
  | nil => intro acc; rfl
  | cons x xs ih =>
    intro acc
    by_cases hp : p x
    · show xs.foldl _ (if p x then g acc x else acc) = _
      rw [if_pos hp, List.filter_cons_of_pos hp, List.foldl_cons, ih]
    · show xs.foldl _ (if p x then g acc x else acc) = _
      rw [if_neg hp, List.filter_cons_of_neg (by simpa using hp), ih]

lemma saveDailyReadiness_idem (now : SqlVal) (data : List RawRec) (t : SqlVal → Option DailyRow) :
    saveDailyReadiness now data (saveDailyReadiness now data t) = saveDailyReadiness now data t := by
  refine batchUpsert_idem _ _ _ readinessMask ?_ ?_ ?_ data t
  · intro d r; cases r; rfl
  · exact cong_of_mask _ _ (fun d r => by cases r; rfl)
  · intro d; rfl

lemma saveDailySleep_idem (now : SqlVal) (data : List RawRec) (t : SqlVal → Option DailyRow) :
    saveDailySleep now data (saveDailySleep now data t) = saveDailySleep now data t := by
  refine batchUpsert_idem _ _ _ dailySleepMask ?_ ?_ ?_ data t
  · intro d r; cases r; rfl
  · exact cong_of_mask _ _ (fun d r => by cases r; rfl)
  · intro d; rfl

lemma saveDailyActivity_idem (now : SqlVal) (data : List RawRec) (t : SqlVal → Option DailyRow) :
    saveDailyActivity now data (saveDailyActivity now data t) = saveDailyActivity now data t := by
  refine batchUpsert_idem _ _ _ dailyActivityMask ?_ ?_ ?_ data t
  · intro d r; cases r; rfl
  · exact cong_of_mask _ _ (fun d r => by cases r; rfl)
  · intro d; rfl

lemma saveDailyStress_idem (now : SqlVal) (data : List RawRec) (t : SqlVal → Option DailyRow) :
    saveDailyStress now data (saveDailyStress now data t) = saveDailyStress now data t := by
  refine batchUpsert_idem _ _ _ dailyStressMask ?_ ?_ ?_ data t
  · intro d r; cases r; rfl
  · exact cong_of_mask _ _ (fun d r => by cases r; rfl)
  · intro d; rfl

lemma saveDailyResilience_idem (now : SqlVal) (data : List RawRec) (t : SqlVal → Option DailyRow) :
    saveDailyResilience now data (saveDailyResilience now data t) = saveDailyResilience now data t := by
  refine batchUpsert_idem _ _ _ dailyResilienceMask ?_ ?_ ?_ data t
  · intro d r; cases r; rfl
  · exact cong_of_mask _ _ (fun d r => by cases r; rfl)
  · intro d; rfl

lemma saveDailySpo2_idem (now : SqlVal) (data : List RawRec) (t : SqlVal → Option DailyRow) :
    saveDailySpo2 now data (saveDailySpo2 now data t) = saveDailySpo2 now data t := by
  refine batchUpsert_idem _ _ _ dailySpo2Mask ?_ ?_ ?_ data t
  · intro d r; cases r; rfl
  · exact cong_of_mask _ _ (fun d r => by cases r; rfl)
  · intro d; rfl

lemma saveCvAge_idem (now : SqlVal) (data : List RawRec) (t : SqlVal → Option DailyRow) :
    saveCvAge now data (saveCvAge now data t) = saveCvAge now data t := by
  refine batchUpsert_idem _ _ _ cvAgeMask ?_ ?_ ?_ data t
  · intro d r; cases r; rfl
  · exact cong_of_mask _ _ (fun d r => by cases r; rfl)
  · intro d; rfl

lemma saveVo2Max_idem (now : SqlVal) (data : List RawRec) (t : SqlVal → Option DailyRow) :
    saveVo2Max now data (saveVo2Max now data t) = saveVo2Max now data t := by
  refine batchUpsert_idem _ _ _ vo2Mask ?_ ?_ ?_ data t
  · intro d r; cases r; rfl
  · exact cong_of_mask _ _ (fun d r => by cases r; rfl)
  · intro d; rfl

lemma saveSleep_idem (data : List RawRec) (t : SqlVal → Option SleepRow) :
    saveSleep data (saveSleep data t) = saveSleep data t := by
  refine batchUpsert_idem _ _ _ (fun _ => ()) ?_ ?_ ?_ data t
  · intro d r; rfl
  · intro d r s _; rfl
  · intro d; rfl

lemma saveHeartrate_eq (data : List RawRec) (t : SqlVal → Option HRRow) :
    saveHeartrate data t =
      batchUpsert (fun d => bindJVal d.timestamp) hrRowOf (fun d _ => hrRowOf d)
        (data.filter hrKeep) t := by
  show chunkedFoldl hrStep (data.length + 1) data t = _
  rw [chunkedFoldl_eq hrStep (data.length + 1) data t (Nat.lt_succ_self _)]
  show data.foldl
      (fun acc d => if hrKeep d then
        upsertStep (fun d => bindJVal d.timestamp) hrRowOf (fun d _ => hrRowOf d) acc d
      else acc) t = _
  rw [foldl_if_filter]
  rfl

lemma saveHeartrate_idem (data : List RawRec) (t : SqlVal → Option HRRow) :
    saveHeartrate data (saveHeartrate data t) = saveHeartrate data t := by
  rw [saveHeartrate_eq, saveHeartrate_eq]
  refine batchUpsert_idem _ _ _ (fun _ => ()) ?_ ?_ ?_ (data.filter hrKeep) t
  · intro d r; rfl
  · intro d r s _; rfl
  · intro d; rfl

lemma saveWorkout_idem (data : List RawRec) (t : SqlVal → Option ActRow) :
    saveWorkout data (saveWorkout data t) = saveWorkout data t := by
  refine batchUpsert_idem _ _ _ workoutMask ?_ ?_ ?_ data t
  · intro d r; cases r; rfl
  · exact cong_of_mask _ _ (fun d r => by cases r; rfl)
  · intro d; rfl

lemma saveSession_idem (data : List RawRec) (t : SqlVal → Option ActRow) :
    saveSession data (saveSession data t) = saveSession data t := by
  refine batchUpsert_idem _ _ _ sessionMask ?_ ?_ ?_ data t
  · intro d r; cases r; rfl
  · exact cong_of_mask _ _ (fun d r => by cases r; rfl)
  · intro d; rfl

lemma saveTag_idem (data : List RawRec) (t : SqlVal → Option TagRow) :
    saveTag data (saveTag data t) = saveTag data t := by
  refine batchUpsert_idem _ _ _ (fun _ => ()) ?_ ?_ ?_ data t
  · intro d r; rfl
  · intro d r s _; rfl
  · intro d; rfl

/-- Claim C7: for every resource name and every batch of raw records, applying
the same batch twice through `saveToD1` yields exactly the same store state as
applying it once — the second application inserts nothing new and rewrites
every touched column to the value it already has.  (Both applications are
taken at the same statement timestamp, since only the written row state is at
issue.) -/
theorem C7_saveToD1_idempotent (now : SqlVal) (endpoint : String)
    (data : List RawRec) (db : Db) :
    saveToD1 now endpoint data (saveToD1 now endpoint data db) =
      saveToD1 now endpoint data db := by
  by_cases h1 : endpoint = "daily_readiness"
  · subst h1
    show { db with daily_summaries := saveDailyReadiness now data (saveDailyReadiness now data db.daily_summaries) } = _
    rw [saveDailyReadiness_idem]
    rfl
  by_cases h2 : endpoint = "daily_sleep"
  · subst h2
    show { db with daily_summaries := saveDailySleep now data (saveDailySleep now data db.daily_summaries) } = _
    rw [saveDailySleep_idem]
    rfl
  by_cases h3 : endpoint = "daily_activity"
  · subst h3
    show { db with daily_summaries := saveDailyActivity now data (saveDailyActivity now data db.daily_summaries) } = _
    rw [saveDailyActivity_idem]
    rfl
  by_cases h4 : endpoint = "daily_stress"
  · subst h4
    show { db with daily_summaries := saveDailyStress now data (saveDailyStress now data db.daily_summaries) } = _
    rw [saveDailyStress_idem]
    rfl
  by_cases h5 : endpoint = "daily_resilience"
  · subst h5
    show { db with daily_summaries := saveDailyResilience now data (saveDailyResilience now data db.daily_summaries) } = _
    rw [saveDailyResilience_idem]
    rfl
  by_cases h6 : endpoint = "daily_spo2"
  · subst h6
    show { db with daily_summaries := saveDailySpo2 now data (saveDailySpo2 now data db.daily_summaries) } = _
    rw [saveDailySpo2_idem]
    rfl
  by_cases h7 : endpoint = "daily_cardiovascular_age"
  · subst h7
    show { db with daily_summaries := saveCvAge now data (saveCvAge now data db.daily_summaries) } = _
    rw [saveCvAge_idem]
    rfl
  by_cases h8 : endpoint = "vo2_max"
  · subst h8
    show { db with daily_summaries := saveVo2Max now data (saveVo2Max now data db.daily_summaries) } = _
    rw [saveVo2Max_idem]
    rfl
  by_cases h9 : endpoint = "sleep"
  · subst h9
    show { db with sleep_episodes := saveSleep data (saveSleep data db.sleep_episodes) } = _
    rw [saveSleep_idem]
    rfl
  by_cases h10 : endpoint = "heartrate"
  · subst h10
    show { db with heart_rate_samples := saveHeartrate data (saveHeartrate data db.heart_rate_samples) } = _
    rw [saveHeartrate_idem]
    rfl
  by_cases h11 : endpoint = "workout"
  · subst h11
    show { db with activity_logs := saveWorkout data (saveWorkout data db.activity_logs) } = _
    rw [saveWorkout_idem]
    rfl
  by_cases h12 : endpoint = "session"
  · subst h12
    show { db with activity_logs := saveSession data (saveSession data db.activity_logs) } = _
    rw [saveSession_idem]
    rfl
  by_cases h13 : endpoint = "tag"
  · subst h13
    show { db with user_tags := saveTag data (saveTag data db.user_tags) } = _
    rw [saveTag_idem]
    rfl
  simp only [saveToD1, if_neg h1, if_neg h2, if_neg h3, if_neg h4, if_neg h5, if_neg h6,
    if_neg h7, if_neg h8, if_neg h9, if_neg h10, if_neg h11, if_neg h12, if_neg h13]

lemma daily_rs_comm_tables (now : SqlVal) (r s : RawRec) (t : SqlVal → Option DailyRow)
    (h : bindJVal r.day = bindJVal s.day) :
    saveDailySleep now [s] (saveDailyReadiness now [r] t) =
      saveDailyReadiness now [r] (saveDailySleep now [s] t) ∧
    saveDailySleep now [s] (saveDailyReadiness now [r] t) (bindJVal r.day) =
      some (dailySleepUpd now s (readinessUpd now r
        ((t (bindJVal r.day)).getD emptyDailyRow))) := by
  have er : ∀ u : SqlVal → Option DailyRow, saveDailyReadiness now [r] u =
      Function.update u (bindJVal r.day)
        (some (readinessUpd now r ((u (bindJVal r.day)).getD emptyDailyRow))) := by
    intro u
    show Function.update u (bindJVal r.day)
        (some (mergeStep (readinessIns now) (readinessUpd now) r (u (bindJVal r.day)))) = _
    cases hu : u (bindJVal r.day) with
    | none => rfl
    | some prev => rfl
  have es : ∀ u : SqlVal → Option DailyRow, saveDailySleep now [s] u =
      Function.update u (bindJVal s.day)
        (some (dailySleepUpd now s ((u (bindJVal s.day)).getD emptyDailyRow))) := by
    intro u
    show Function.update u (bindJVal s.day)
        (some (mergeStep (dailySleepIns now) (dailySleepUpd now) s (u (bindJVal s.day)))) = _
    cases hu : u (bindJVal s.day) with
    | none => rfl
    | some prev => rfl
  have comm : ∀ base : DailyRow, dailySleepUpd now s (readinessUpd now r base) =
      readinessUpd now r (dailySleepUpd now s base) := by
    intro base; cases base; rfl
  constructor
  · rw [es (saveDailyReadiness now [r] t), er t, er (saveDailySleep now [s] t), es t, ← h]
    simp only [Function.update_same, Option.getD_some, Function.update_idem]
    rw [comm]
  · rw [es (saveDailyReadiness now [r] t), er t, ← h]
    simp only [Function.update_same, Option.getD_some]

/-- Claim C6: applying a daily_readiness partial record and a daily_sleep
partial record for the same date, in either order, yields the same
daily_summaries state; the resulting row is the pre-existing row (or a fresh
all-NULL row), with exactly the readiness columns overwritten from the
readiness record and exactly the sleep columns overwritten from the sleep
record — each writer touches only the columns it owns and preserves all
others. -/
theorem C6_daily_merge_commutes (now : SqlVal) (r s : RawRec) (db : Db)
    (h : bindJVal r.day = bindJVal s.day) :
    saveToD1 now "daily_sleep" [s] (saveToD1 now "daily_readiness" [r] db) =
      saveToD1 now "daily_readiness" [r] (saveToD1 now "daily_sleep" [s] db) ∧
    (saveToD1 now "daily_sleep" [s]
        (saveToD1 now "daily_readiness" [r] db)).daily_summaries (bindJVal r.day) =
      some (dailySleepUpd now s (readinessUpd now r
        ((db.daily_summaries (bindJVal r.day)).getD emptyDailyRow))) := by
  obtain ⟨h1, h2⟩ := daily_rs_comm_tables now r s db.daily_summaries h
  constructor
  · show { db with daily_summaries := saveDailySleep now [s] (saveDailyReadiness now [r] db.daily_summaries) } = { db with daily_summaries := saveDailyReadiness now [r] (saveDailySleep now [s] db.daily_summaries) }
    rw [h1]
  · exact h2

/-- Concrete timestamp value used by witness scenarios. -/
def wNow : SqlVal := .vtext ("2024-06-01T00:00:00Z".toList)

/-- Concrete readiness record for the C6 witness. -/
def wReadinessRec : RawRec :=
  { nullRec with day := .str ("2024-01-01".toList), score := .num (.fin 80) }

/-- Concrete daily_sleep record for the C6 witness. -/
def wSleepRec : RawRec :=
  { nullRec with day := .str ("2024-01-01".toList), score := .num (.fin 70) }

/-- The empty store. -/
def emptyDb : Db := ⟨fun _ => none, fun _ => none, fun _ => none, fun _ => none, fun _ => none⟩

/-- Witness for C6 at a concrete same-day record pair over the empty store. -/
theorem C6_daily_merge_commutes_witness :
    saveToD1 wNow "daily_sleep" [wSleepRec] (saveToD1 wNow "daily_readiness" [wReadinessRec] emptyDb) =
      saveToD1 wNow "daily_readiness" [wReadinessRec]
        (saveToD1 wNow "daily_sleep" [wSleepRec] emptyDb) ∧
    (saveToD1 wNow "daily_sleep" [wSleepRec]
        (saveToD1 wNow "daily_readiness" [wReadinessRec] emptyDb)).daily_summaries
          (bindJVal wReadinessRec.day) =
      some (dailySleepUpd wNow wSleepRec (readinessUpd wNow wReadinessRec
        ((emptyDb.daily_summaries (bindJVal wReadinessRec.day)).getD emptyDailyRow))) :=
  C6_daily_merge_commutes wNow wReadinessRec wSleepRec emptyDb (by rfl)

/-- Query mode of a discovered resource. -/
inductive OuraQueryMode where
  | qnone
  | qdate
  | qdatetime
deriving DecidableEq

/-- A resource descriptor as produced by the catalog loader. -/
structure OuraResource where
  resource : String
  path : String
  queryMode : OuraQueryMode
  paginated : Bool

/-- Source `getChunkDaysForResource`: heartrate windows are capped at 29 days
(the remote API enforces a 30-day maximum datetime range), everything else at
90 days. -/
def getChunkDaysForResource (r : OuraResource) : ℕ :=
  if r.resource = "heartrate" then 29 else 90

/-- A time window handed to the fetcher, as the day numbers of its start and
end dates (ISO date strings are in order-preserving bijection with day
numbers, so spans are measured exactly). -/
structure Window where
  startDay : ℤ
  endDay : ℤ
deriving DecidableEq

def msPerDay : ℤ := 86400000

/-- Calendar day number of an epoch-ms instant — the date part of
`new Date(ms).toISOString()`.  Division here is Euclidean, which for the
positive divisor `msPerDay` is exactly floor division. -/
def isoDay (ms : ℤ) : ℤ := ms / msPerDay

/-- The `i`-loop of `syncData`, collecting the chunk start offsets
`0, chunk, 2·chunk, … < totalDays`.  The fuel only bounds the iteration count;
`totalDays + 1` always suffices because `chunk ≥ 1` at every call site. -/
def syncIdxGo (chunk totalDays : ℕ) : ℕ → ℕ → List ℕ
  | 0, _ => []
  | fuel + 1, i => if i < totalDays then i :: syncIdxGo chunk totalDays fuel (i + chunk) else []

def syncIdx (chunk totalDays : ℕ) : List ℕ :=
  syncIdxGo chunk totalDays (totalDays + 1) 0

/-- One loop iteration's window: `windowDays = min(chunkDays, totalDays - i)`,
start `now - (offset+i+windowDays)` days, end `now - (offset+i)` days. -/
def windowFor (nowMs : ℤ) (offsetDays totalDays chunk i : ℕ) : Window :=
  { startDay := isoDay (nowMs - ((offsetDays : ℤ) + i + (min chunk (totalDays - i) : ℕ)) * msPerDay),
    endDay := isoDay (nowMs - ((offsetDays : ℤ) + i) * msPerDay) }

/-- All windows `syncData` issues for one windowed resource with the given
chunk size. -/
def syncWindows (nowMs : ℤ) (offsetDays totalDays chunk : ℕ) : List Window :=
  (syncIdx chunk totalDays).map (windowFor nowMs offsetDays totalDays chunk)

/-- All windows `syncData` issues for a given resource. -/
def syncWindowsFor (nowMs : ℤ) (offsetDays totalDays : ℕ) (r : OuraResource) : List Window :=
  syncWindows nowMs offsetDays totalDays (getChunkDaysForResource r)

/-- One page-level interaction of the fetcher with the remote API:
`attempts i` is the status of the `i`-th attempt of `fetchWithRetry` for this
page's request; `throws` models the promise rejecting (network failure)
instead of resolving; `jsonOk`, `data` and `nextToken` describe the parsed
body. -/
structure PageResp where
  throws : Bool
  attempts : ℕ → ℕ
  jsonOk : Bool
  data : List RawRec
  nextToken : Option String

/-- Remote behaviour: a page response per resource name, window and page
index. -/
def World : Type := String → Option Window → ℕ → PageResp

/-- How one `ingestResource` call ended. -/
inductive IngestStop where
  | thrown
  | noToken
  | httpFail
  | jsonFail
  | done
  | safeguard
deriving DecidableEq

/-- Result of one iteration of the `while (true)` body of `ingestResource`:
either the loop returns (with a stop event), or a continuation token was
present and the loop would proceed to the next page. -/
inductive PageOutcome where
  | halt (s : IngestStop) (db : Db)
  | next (db : Db)

/-- One iteration of the `while (true)` body of `ingestResource`, minus the
page-counter check: fetch with retry; a non-OK final status or an invalid
JSON body is logged and the loop returns (it does not throw); a non-empty
`data` array is saved; an unwindowed/unpaginated resource or an absent
continuation token ends the loop. -/
def ingestPage (world : World) (now : SqlVal) (name : String) (paginated : Bool)
    (window : Option Window) (pageIdx : ℕ) (db : Db) : PageOutcome :=
  let pr := world name window pageIdx
  if pr.throws then .halt .thrown db
  else
    let st := (fetchWithRetry pr.attempts 3).status
    if ¬ (200 ≤ st ∧ st ≤ 299) then .halt .httpFail db
    else if ¬ pr.jsonOk then .halt .jsonFail db
    else
      let db2 := if pr.data ≠ [] then saveToD1 now name pr.data db else db
      if ¬ paginated then .halt .done db2
      else
        match pr.nextToken with
        | none => .halt .done db2
        | some _ => .next db2

/-- The `while (true)` pagination loop of `ingestResource`.  Returns the stop
event, the number of page requests issued, and the store.  `budget` is
`1000 - page` in source terms: when a continuation token is present and the
budget is exhausted (source: `page > 1000`), the safeguard fires instead of a
further request. -/
def ingestGo (world : World) (now : SqlVal) (name : String) (paginated : Bool)
    (window : Option Window) : ℕ → ℕ → Db → IngestStop × ℕ × Db
  | pageIdx, 0, db =>
    match ingestPage world now name paginated window pageIdx db with
    | .halt s db2 => (s, 1, db2)
    | .next db2 => (.safeguard, 1, db2)
  | pageIdx, b + 1, db =>
    match ingestPage world now name paginated window pageIdx db with
    | .halt s db2 => (s, 1, db2)
    | .next db2 =>
      let rest := ingestGo world now name paginated window (pageIdx + 1) b db2
      (rest.1, rest.2.1 + 1, rest.2.2)

/-- Source `ingestResource(env, r, window)`: a failed token acquisition is
caught and the function returns having issued no request; otherwise the
pagination loop runs with the hard cap. -/
def ingestResource (world : World) (now : SqlVal) (r : OuraResource)
    (window : Option Window) (tokenOk : Bool) (db : Db) : IngestStop × ℕ × Db :=
  if ¬ tokenOk then (.noToken, 0, db)
  else ingestGo world now r.resource r.paginated window 0 1000 db

/-- Per-resource outcome recorded by the orchestrator. -/
structure ResEntry where
  resource : String
  success : Bool
  requests : ℕ
deriving DecidableEq

/-- The logged sync summary. -/
structure SyncSummary where
  successful : ℕ
  failed : ℕ
  totalRequests : ℕ
deriving DecidableEq

/-- The sequential per-resource window loop of `syncData`: each window's
ingest must complete before the next begins; a thrown ingest aborts the
resource (its request count is then not reported — the catch path's summary
entry carries no request field, which the totaliser reads as 0). -/
def runWindows (world : World) (now : SqlVal) (r : OuraResource) :
    List Window → ℕ → Db → Bool × ℕ × Db
  | [], count, db => (true, count, db)
  | w :: ws, count, db =>
    let out := ingestResource world now r (some w) true db
    if out.1 = .thrown then (false, 0, out.2.2)
    else runWindows world now r ws (count + 1) out.2.2

/-- One resource task of `syncData`, with the per-resource try/catch: an
unwindowed resource is fetched once; a windowed one iterates its chunk
windows.  Only a thrown error marks the resource failed. -/
def runResource (world : World) (now : SqlVal) (nowMs : ℤ)
    (totalDays offsetDays : ℕ) (db : Db) (r : OuraResource) : ResEntry × Db :=
  match r.queryMode with
  | .qnone =>
    let out := ingestResource world now r none true db
    if out.1 = .thrown then (⟨r.resource, false, 0⟩, out.2.2)
    else (⟨r.resource, true, 1⟩, out.2.2)
  | _ =>
    let out := runWindows world now r (syncWindowsFor nowMs offsetDays totalDays r) 0 db
    (⟨r.resource, out.1, out.2.1⟩, out.2.2)

/-- Source `syncData(env, totalDays, offsetDays, resourceFilter)`: filter the
catalog, run every resource (the tasks settle independently; their writes
touch disjoint keys per table, so the settled outcome is modelled by the
sequential fold), and aggregate the summary exactly as the source does:
`successful` counts fulfilled tasks with `success`, `failed` counts the rest,
`totalRequests` sums the fulfilled tasks' request counts with `|| 0`.
`syncStep` is one settled resource task appended to the running outcomes. -/
def syncStep (world : World) (now : SqlVal) (nowMs : ℤ)
    (totalDays offsetDays : ℕ) (acc : List ResEntry × Db) (r : OuraResource) :
    List ResEntry × Db :=
  let res := runResource world now nowMs totalDays offsetDays acc.2 r
  (acc.1 ++ [res.1], res.2)

def syncData (world : World) (now : SqlVal) (nowMs : ℤ)
    (totalDays offsetDays : ℕ) (resources : List OuraResource)
    (resourceFilter : Option (List String)) (db : Db) : SyncSummary × Db :=
  let rs := match resourceFilter with
    | none => resources
    | some f => resources.filter (fun r => f.contains r.resource)
  let out := rs.foldl (syncStep world now nowMs totalDays offsetDays) ([], db)
  (⟨(out.1.filter (fun e => e.success)).length,
    (out.1.filter (fun e => !e.success)).length,
    (out.1.map (fun e => e.requests)).sum⟩, out.2)

lemma ingestGo_requests_le (world : World) (now : SqlVal) (name : String)
    (paginated : Bool) (window : Option Window) :
    ∀ (budget pageIdx : ℕ) (db : Db),
      (ingestGo world now name paginated window pageIdx budget db).2.1 ≤ budget + 1 := by
  intro budget
  induction budget with
  | zero =>
    intro pageIdx db
    simp only [ingestGo]
    split
    all_goals dsimp only
    all_goals omega
  | succ b ih =>
    intro pageIdx db
    simp only [ingestGo]
    split
    · dsimp only
      omega
    · dsimp only
      exact Nat.succ_le_succ (ih _ _)

lemma ingestPage_next (world : World) (now : SqlVal) (name : String)
    (window : Option Window) (i : ℕ) (db : Db)
    (h1 : (world name window i).throws = false)
    (h2 : 200 ≤ (fetchWithRetry (world name window i).attempts 3).status)
    (h3 : (fetchWithRetry (world name window i).attempts 3).status ≤ 299)
    (h4 : (world name window i).jsonOk = true)
    (h5 : (world name window i).nextToken ≠ none) :
    ingestPage world now name true window i db =
      .next (if (world name window i).data ≠ []
        then saveToD1 now name (world name window i).data db else db) := by
  simp only [ingestPage]
  rw [if_neg (by simp [h1])]
  rw [if_neg (not_not_intro ⟨h2, h3⟩)]
  rw [if_neg (by simp [h4])]
  rw [if_neg (by simp)]
  obtain ⟨tok, htk⟩ := Option.ne_none_iff_exists'.mp h5
  rw [htk]

lemma ingestGo_always_token (world : World) (now : SqlVal) (name : String)
    (window : Option Window)
    (h : ∀ i, (world name window i).throws = false ∧
      200 ≤ (fetchWithRetry (world name window i).attempts 3).status ∧
      (fetchWithRetry (world name window i).attempts 3).status ≤ 299 ∧
      (world name window i).jsonOk = true ∧
      (world name window i).nextToken ≠ none) :
    ∀ (budget pageIdx : ℕ) (db : Db),
      (ingestGo world now name true window pageIdx budget db).1 = .safeguard ∧
      (ingestGo world now name true window pageIdx budget db).2.1 = budget + 1 := by
  intro budget
  induction budget with
  | zero =>
    intro pageIdx db
    obtain ⟨h1, h2, h3, h4, h5⟩ := h pageIdx
    simp only [ingestGo]
    rw [ingestPage_next world now name window pageIdx db h1 h2 h3 h4 h5]
    exact ⟨rfl, rfl⟩
  | succ b ih =>
    intro pageIdx db
    obtain ⟨h1, h2, h3, h4, h5⟩ := h pageIdx
    simp only [ingestGo]
    rw [ingestPage_next world now name window pageIdx db h1 h2 h3 h4 h5]
    dsimp only
    refine ⟨(ih _ _).1, ?_⟩
    rw [(ih _ _).2]

/-- Claim C3 (amended): the pagination loop always terminates — it never
issues more than 1001 page requests — and on an endpoint whose every page is
OK and carries a continuation token, a paginated resource stops after exactly
1001 requests (the source's cap check `page > 1000` fires one page late)
with the safeguard event rather than following tokens forever. -/
theorem C3_pagination_cap (world : World) (now : SqlVal) (r : OuraResource)
    (window : Option Window) (tokenOk : Bool) (db : Db) :
    (ingestResource world now r window tokenOk db).2.1 ≤ 1001 ∧
    ((∀ i, (world r.resource window i).throws = false ∧
        200 ≤ (fetchWithRetry (world r.resource window i).attempts 3).status ∧
        (fetchWithRetry (world r.resource window i).attempts 3).status ≤ 299 ∧
        (world r.resource window i).jsonOk = true ∧
        (world r.resource window i).nextToken ≠ none) →
      r.paginated = true → tokenOk = true →
      (ingestResource world now r window tokenOk db).1 = .safeguard ∧
      (ingestResource world now r window tokenOk db).2.1 = 1001) := by
  constructor
  · by_cases ht : tokenOk
    · show (if ¬ tokenOk then ((.noToken : IngestStop), 0, db)
          else ingestGo world now r.resource r.paginated window 0 1000 db).2.1 ≤ 1001
      rw [if_neg (by simp [ht])]
      exact ingestGo_requests_le world now r.resource r.paginated window 1000 0 db
    · show (if ¬ tokenOk then ((.noToken : IngestStop), 0, db)
          else ingestGo world now r.resource r.paginated window 0 1000 db).2.1 ≤ 1001
      rw [if_pos (by simp [ht])]
      dsimp only
      omega
  · intro hw hp ht
    subst ht
    have key := ingestGo_always_token world now r.resource window hw 1000 0 db
    constructor
    · show (ingestGo world now r.resource r.paginated window 0 1000 db).1 = .safeguard
      rw [hp]
      exact key.1
    · show (ingestGo world now r.resource r.paginated window 0 1000 db).2.1 = 1001
      rw [hp]
      exact key.2

/-- A remote behaviour whose every page is OK and always carries a
continuation token. -/
def alwaysTokenWorld : World := fun _ _ _ => ⟨false, fun _ => 200, true, [], some "t"⟩

/-- A paginated, date-windowed resource. -/
def pagRes : OuraResource := ⟨"sleep", "/v2/usercollection/sleep", .qdate, true⟩

lemma alwaysTokenWorld_ok : ∀ i, (alwaysTokenWorld "sleep" none i).throws = false ∧
    200 ≤ (fetchWithRetry (alwaysTokenWorld "sleep" none i).attempts 3).status ∧
    (fetchWithRetry (alwaysTokenWorld "sleep" none i).attempts 3).status ≤ 299 ∧
    (alwaysTokenWorld "sleep" none i).jsonOk = true ∧
    (alwaysTokenWorld "sleep" none i).nextToken ≠ none := by
  intro i
  refine ⟨rfl, ?_, ?_, rfl, ?_⟩
  · show 200 ≤ (fetchWithRetry (fun _ => 200) 3).status
    decide
  · show (fetchWithRetry (fun _ => 200) 3).status ≤ 299
    decide
  · show (some "t" : Option String) ≠ none
    simp

/-- Counterexample to C3 as stated: on an endpoint that always returns a
continuation token, the fetcher issues exactly 1001 page requests — not
1000 — before the safeguard stops it. -/
theorem C3_pagination_counterexample :
    (ingestResource alwaysTokenWorld wNow pagRes none true emptyDb).2.1 = 1001 ∧
    (ingestResource alwaysTokenWorld wNow pagRes none true emptyDb).2.1 ≠ 1000 := by
  have h := ingestGo_always_token alwaysTokenWorld wNow "sleep" none alwaysTokenWorld_ok 1000 0 emptyDb
  have e : ingestResource alwaysTokenWorld wNow pagRes none true emptyDb =
      ingestGo alwaysTokenWorld wNow "sleep" true none 0 1000 emptyDb := by
    simp [ingestResource, pagRes]
  rw [e, h.2]
  exact ⟨rfl, by decide⟩

/-- Witness for C3 at the concrete always-token behaviour. -/
theorem C3_pagination_cap_witness :
    (ingestResource alwaysTokenWorld wNow pagRes none true emptyDb).2.1 ≤ 1001 ∧
    (ingestResource alwaysTokenWorld wNow pagRes none true emptyDb).1 = .safeguard ∧
    (ingestResource alwaysTokenWorld wNow pagRes none true emptyDb).2.1 = 1001 := by
  have h := C3_pagination_cap alwaysTokenWorld wNow pagRes none true emptyDb
  have h2 := h.2 alwaysTokenWorld_ok rfl rfl
  exact ⟨h.1, h2.1, h2.2⟩

lemma isoDay_sub_days (x : ℤ) (w : ℕ) :
    isoDay (x - (w : ℤ) * msPerDay) = isoDay x - w := by
  have hD : msPerDay ≠ 0 := by norm_num [msPerDay]
  have hx : x - (w : ℤ) * msPerDay = x + (-(w : ℤ)) * msPerDay := by ring
  unfold isoDay
  rw [hx, Int.add_mul_ediv_right x (-(w : ℤ)) hD]
  ring

lemma windowFor_span (nowMs : ℤ) (offsetDays totalDays chunk i : ℕ) :
    (windowFor nowMs offsetDays totalDays chunk i).endDay -
      (windowFor nowMs offsetDays totalDays chunk i).startDay =
      ((min chunk (totalDays - i) : ℕ) : ℤ) := by
  unfold windowFor
  dsimp only
  have hx : nowMs - ((offsetDays : ℤ) + i + ((min chunk (totalDays - i) : ℕ) : ℤ)) * msPerDay =
      (nowMs - ((offsetDays : ℤ) + i) * msPerDay) -
        ((min chunk (totalDays - i) : ℕ) : ℤ) * msPerDay := by ring
  rw [hx, isoDay_sub_days]
  ring

/-- Claim C5: every window the orchestrator issues for a resource spans at
most that resource's chunk size — at most 90 days in general, and for the
heartrate resource the chunk size is 29 days, so no heartrate request ever
spans more than the remote API's 30-day maximum. -/
theorem C5_window_span_invariant (nowMs : ℤ) (offsetDays totalDays : ℕ)
    (r : OuraResource) (w : Window)
    (hw : w ∈ syncWindowsFor nowMs offsetDays totalDays r) :
    w.endDay - w.startDay ≤ (getChunkDaysForResource r : ℤ) ∧
    (getChunkDaysForResource r : ℤ) ≤ 90 ∧
    (r.resource = "heartrate" →
      getChunkDaysForResource r = 29 ∧
      w.endDay - w.startDay ≤ 29 ∧ (29 : ℤ) < 30) := by
  simp only [syncWindowsFor, syncWindows] at hw
  obtain ⟨i, hi, rfl⟩ := List.mem_map.mp hw
  have hspan := windowFor_span nowMs offsetDays totalDays (getChunkDaysForResource r) i
  refine ⟨?_, ?_, ?_⟩
  · rw [hspan]
    exact_mod_cast Nat.min_le_left _ _
  · unfold getChunkDaysForResource
    split <;> norm_num
  · intro hres
    have hc : getChunkDaysForResource r = 29 := by
      simp [getChunkDaysForResource, hres]
    rw [hc] at hspan
    refine ⟨hc, ?_, by norm_num⟩
    rw [hc, hspan]
    exact_mod_cast Nat.min_le_left _ _

/-- A heartrate resource descriptor for the C5 witness. -/
def wHrRes : OuraResource := ⟨"heartrate", "/v2/usercollection/heartrate", .qdatetime, false⟩

/-- Witness for C5 at a concrete heartrate window (now = epoch, 3-day span). -/
theorem C5_window_span_invariant_witness :
    (⟨-3, 0⟩ : Window) ∈ syncWindowsFor 0 0 3 wHrRes ∧
    ((⟨-3, 0⟩ : Window).endDay - (⟨-3, 0⟩ : Window).startDay ≤
        (getChunkDaysForResource wHrRes : ℤ) ∧
      (getChunkDaysForResource wHrRes : ℤ) ≤ 90 ∧
      (wHrRes.resource = "heartrate" →
        getChunkDaysForResource wHrRes = 29 ∧
        (⟨-3, 0⟩ : Window).endDay - (⟨-3, 0⟩ : Window).startDay ≤ 29 ∧ (29 : ℤ) < 30)) :=
  ⟨by decide, C5_window_span_invariant 0 0 3 wHrRes ⟨-3, 0⟩ (by decide)⟩

/-- Unwindowed tag resource of the C1 scenario. -/
def wTagRes : OuraResource := ⟨"tag", "/v2/usercollection/tag", .qnone, false⟩

/-- Date-windowed resource of the C1 scenario. -/
def wSleepRes : OuraResource := ⟨"daily_sleep", "/v2/usercollection/daily_sleep", .qdate, false⟩

/-- Tag record the healthy resource delivers. -/
def wTagRec : RawRec :=
  { nullRec with id := .str ("t1".toList), day := .str ("2024-01-01".toList) }

/-- Healthy page: one tag record, no continuation. -/
def okTagPage : PageResp := ⟨false, fun _ => 200, true, [wTagRec], none⟩

/-- Page whose endpoint returns 500 on every retry attempt. -/
def fail500Page : PageResp := ⟨false, fun _ => 500, true, [], none⟩

/-- Page whose fetch promise rejects (network failure). -/
def throwPage : PageResp := ⟨true, fun _ => 200, true, [], none⟩

/-- C1 scenario: the tag resource is healthy, the windowed resource 500s. -/
def w500World : World := fun name _ _ => if name = "tag" then okTagPage else fail500Page

/-- Variant scenario: the windowed resource's fetch throws. -/
def wThrowWorld : World := fun name _ _ => if name = "tag" then okTagPage else throwPage

lemma length_filter_bnot {γ : Type} (p : γ → Bool) :
    ∀ l : List γ, (l.filter p).length + (l.filter (fun x => !p x)).length = l.length := by
  intro l
  induction l with
  | nil => rfl
  | cons x xs ih =>
    cases hp : p x
    · rw [List.filter_cons_of_neg (by simp [hp]), List.filter_cons_of_pos (by simp [hp])]
      simp only [List.length_cons]
      omega
    · rw [List.filter_cons_of_pos (by simp [hp]), List.filter_cons_of_neg (by simp [hp])]
      simp only [List.length_cons]
      omega

lemma sync_entries_length (world : World) (now : SqlVal) (nowMs : ℤ)
    (totalDays offsetDays : ℕ) :
    ∀ (rs : List OuraResource) (acc : List ResEntry) (db : Db),
      ((rs.foldl (syncStep world now nowMs totalDays offsetDays) (acc, db)).1).length =
        acc.length + rs.length := by
  intro rs
  induction rs with
  | nil => intro acc db; simp
  | cons r rs ih =>
    intro acc db
    show ((rs.foldl (syncStep world now nowMs totalDays offsetDays)
        (syncStep world now nowMs totalDays offsetDays (acc, db) r)).1).length = _
    have hstep : syncStep world now nowMs totalDays offsetDays (acc, db) r =
        (acc ++ [(runResource world now nowMs totalDays offsetDays db r).1],
          (runResource world now nowMs totalDays offsetDays db r).2) := rfl
    rw [hstep, ih]
    simp only [List.length_append, List.length_cons, List.length_nil]
    omega

/-- Claim C1 (amended): the orchestrator characterises every resource as
succeeded or failed (successful + failed = number of resources), but an HTTP
failure after retries is absorbed inside `ingestResource` — it is logged, the
resource's data is simply not persisted, and the resource still counts as
successful.  In the claim's scenario the summary is therefore
`{successful: 2, failed: 0}`, with the unwindowed sibling's data persisted.
Only a thrown error marks a resource failed; it is caught at the per-resource
boundary and does not abort the sibling, whose data is still persisted. -/
theorem C1_sync_partial_failure :
    (∀ (world : World) (now : SqlVal) (nowMs : ℤ) (totalDays offsetDays : ℕ)
        (resources : List OuraResource) (db : Db),
      (syncData world now nowMs totalDays offsetDays resources none db).1.successful +
        (syncData world now nowMs totalDays offsetDays resources none db).1.failed =
        resources.length) ∧
    ((syncData w500World wNow 0 3 0 [wTagRes, wSleepRes] none emptyDb).1 =
        ⟨2, 0, 2⟩ ∧
      (syncData w500World wNow 0 3 0 [wTagRes, wSleepRes] none emptyDb).2.user_tags
          (.vtext ("t1".toList)) =
        some ⟨.vtext ("2024-01-01".toList), .vnull, .vnull⟩) ∧
    ((syncData wThrowWorld wNow 0 3 0 [wTagRes, wSleepRes] none emptyDb).1 =
        ⟨1, 1, 1⟩ ∧
      (syncData wThrowWorld wNow 0 3 0 [wTagRes, wSleepRes] none emptyDb).2.user_tags
          (.vtext ("t1".toList)) =
        some ⟨.vtext ("2024-01-01".toList), .vnull, .vnull⟩) := by
  refine ⟨?_, by decide, by decide⟩
  intro world now nowMs totalDays offsetDays resources db
  show ((resources.foldl (syncStep world now nowMs totalDays offsetDays) ([], db)).1.filter
        (fun e => e.success)).length +
      ((resources.foldl (syncStep world now nowMs totalDays offsetDays) ([], db)).1.filter
        (fun e => !e.success)).length = resources.length
  rw [length_filter_bnot]
  rw [sync_entries_length]
  simp

/-- Counterexample to C1 as stated: in the exact partial-failure scenario the
summary is `{successful: 2, failed: 0}`, not `{successful: 1, failed: 1}` —
the resource whose only request 500s through all retries is still counted
successful. -/
theorem C1_sync_counterexample :
    (syncData w500World wNow 0 3 0 [wTagRes, wSleepRes] none emptyDb).1.successful = 2 ∧
    (syncData w500World wNow 0 3 0 [wTagRes, wSleepRes] none emptyDb).1.failed = 0 ∧
    ¬ ((syncData w500World wNow 0 3 0 [wTagRes, wSleepRes] none emptyDb).1.successful = 1 ∧
      (syncData w500World wNow 0 3 0 [wTagRes, wSleepRes] none emptyDb).1.failed = 1) := by
  decide

/-- A pending authorization state row as stored in oura_oauth_states:
`user_id` may be NULL in the store, `created_at` is the stored number. -/
structure OAuthStateRow where
  user_id : Option String
  created_at : JsNum
deriving DecidableEq

/-- Outcome of the state-token part of the OAuth callback. -/
inductive AuthResult where
  | invalidState
  | expiredState
  | ok (userId : String)
deriving DecidableEq

/-- Source /oauth/callback state handling: look the Pending Authorization
State up by token — absent fails `InvalidState` with no store change; a
non-finite or stale (strictly older than 15 minutes) `created_at` deletes the
row and fails `ExpiredState`; otherwise the row is deleted (single use) and
the flow proceeds as `ok` with the row's user id (`?? 'default'`), after
which the code exchange and credential upsert run. -/
def completeAuthorization (states : String → Option OAuthStateRow) (state : String)
    (nowMs : ℚ) : AuthResult × (String → Option OAuthStateRow) :=
  match states state with
  | none => (.invalidState, states)
  | some row =>
    match row.created_at with
    | .nonfin => (.expiredState, Function.update states state none)
    | .fin createdAt =>
      if nowMs - createdAt > 15 * 60000 then
        (.expiredState, Function.update states state none)
      else
        (.ok (row.user_id.getD "default"), Function.update states state none)

/-- Claim C4: the state token is single-use and time-bounded — an unknown
state fails `InvalidState`; a second call with the same state never succeeds
(the row is deleted on first use, so the second call fails `InvalidState`);
and a state older than 15 minutes fails `ExpiredState` and is deleted as a
side effect even if otherwise valid. -/
theorem C4_state_token_single_use (states : String → Option OAuthStateRow)
    (st : String) (t1 t2 : ℚ) :
    (states st = none → (completeAuthorization states st t1).1 = .invalidState) ∧
    ((completeAuthorization (completeAuthorization states st t1).2 st t2).1 =
      .invalidState) ∧
    (∀ row c, states st = some row → row.created_at = .fin c → t1 - c > 15 * 60000 →
      (completeAuthorization states st t1).1 = .expiredState ∧
      (completeAuthorization states st t1).2 st = none) := by
  refine ⟨?_, ?_, ?_⟩
  · intro h
    simp [completeAuthorization, h]
  · cases hs : states st with
    | none => simp [completeAuthorization, hs]
    | some row =>
      cases hc : row.created_at with
      | nonfin => simp [completeAuthorization, hs, hc, Function.update_same]
      | fin c =>
        by_cases ht : t1 - c > 15 * 60000
        · simp [completeAuthorization, hs, hc, if_pos ht, Function.update_same]
        · simp [completeAuthorization, hs, hc, if_neg ht, Function.update_same]
  · intro row c hs hc ht
    simp [completeAuthorization, hs, hc, if_pos ht, Function.update_same]

/-- One pending state row for the C4 witness, created at t = 0. -/
def wStates : String → Option OAuthStateRow :=
  Function.update (fun _ => none) "s1" (some ⟨some "u1", .fin 0⟩)

/-- Witness for C4: replaying the same state never succeeds twice, and a
16-minute-old state expires and is deleted. -/
theorem C4_state_token_single_use_witness :
    ((completeAuthorization (completeAuthorization wStates "s1" 1000).2 "s1" 2000).1 =
      .invalidState) ∧
    ((completeAuthorization wStates "s1" 960000).1 = .expiredState ∧
      (completeAuthorization wStates "s1" 960000).2 "s1" = none) :=
  ⟨(C4_state_token_single_use wStates "s1" 1000 2000).2.1,
   (C4_state_token_single_use wStates "s1" 960000 960000).2.2 ⟨some "u1", .fin 0⟩ 0
     (by decide) rfl (by norm_num)⟩

/-- A credential row of oura_oauth_tokens. -/
structure OuraTokenRow where
  access_token : String
  refresh_token : Option String
  expires_at : Option JsNum
  scope : Option String
  token_type : Option String
deriving DecidableEq

/-- A token-endpoint response body (fields optional per the provider). -/
structure OuraTokenResponse where
  access_token : String
  refresh_token : Option String
  expires_in : Option JsNum
  scope : Option String
  token_type : Option String
deriving DecidableEq

/-- Source `upsertOauthToken`: computes `expires_at` from a finite
`expires_in` (with the 60 s safety margin), inserts a fresh row when the
subject has none, and otherwise updates in place with
`refresh_token = COALESCE(excluded.refresh_token, existing.refresh_token)`. -/
def upsertOauthToken (tokens : String → Option OuraTokenRow) (userId : String)
    (token : OuraTokenResponse) (nowMs : ℚ) : String → Option OuraTokenRow :=
  let expiresAt : Option JsNum :=
    match token.expires_in with
    | some (.fin q) => some (.fin (nowMs + max 0 (q - 60) * 1000))
    | _ => none
  match tokens userId with
  | none =>
    Function.update tokens userId
      (some ⟨token.access_token, token.refresh_token, expiresAt, token.scope, token.token_type⟩)
  | some prev =>
    Function.update tokens userId
      (some ⟨token.access_token,
        (match token.refresh_token with
          | some rt => some rt
          | none => prev.refresh_token),
        expiresAt, token.scope, token.token_type⟩)

/-- Claim C8: an existing non-null refresh token is never overwritten with
null — on every credential upsert over an existing row, an incoming pair
without a refresh token preserves the stored one, and the stored refresh
token never goes from non-null to null. -/
theorem C8_refresh_token_never_nulled (tokens : String → Option OuraTokenRow)
    (userId : String) (token : OuraTokenResponse) (nowMs : ℚ) (prev : OuraTokenRow)
    (hprev : tokens userId = some prev) :
    ∃ newRow, (upsertOauthToken tokens userId token nowMs) userId = some newRow ∧
      (token.refresh_token = none → newRow.refresh_token = prev.refresh_token) ∧
      (prev.refresh_token ≠ none → newRow.refresh_token ≠ none) ∧
      newRow.access_token = token.access_token := by
  have hval : (upsertOauthToken tokens userId token nowMs) userId =
      some ⟨token.access_token,
        (match token.refresh_token with
          | some rt => some rt
          | none => prev.refresh_token),
        (match token.expires_in with
          | some (.fin q) => some (.fin (nowMs + max 0 (q - 60) * 1000))
          | _ => none),
        token.scope, token.token_type⟩ := by
    simp only [upsertOauthToken, hprev]
    rw [Function.update_same]
  refine ⟨_, hval, ?_, ?_, rfl⟩
  · intro hn
    simp [hn]
  · intro hp
    cases hrt : token.refresh_token with
    | none => simpa [hrt] using hp
    | some rt => simp [hrt]

/-- Stored credential row for the C8 witness: has a refresh token. -/
def wTokens : String → Option OuraTokenRow :=
  Function.update (fun _ => none) "default"
    (some ⟨"oldAccess", some "oldRefresh", none, none, none⟩)

/-- A refreshed pair that carries no refresh token. -/
def wTokenResp : OuraTokenResponse := ⟨"newAccess", none, some (.fin 3600), none, none⟩

/-- Witness for C8 at a concrete refresh that returns no refresh token. -/
theorem C8_refresh_token_never_nulled_witness :
    ∃ newRow, (upsertOauthToken wTokens "default" wTokenResp 0) "default" = some newRow ∧
      (wTokenResp.refresh_token = none →
        newRow.refresh_token = (⟨"oldAccess", some "oldRefresh", none, none, none⟩ :
          OuraTokenRow).refresh_token) ∧
      ((⟨"oldAccess", some "oldRefresh", none, none, none⟩ :
          OuraTokenRow).refresh_token ≠ none → newRow.refresh_token ≠ none) ∧
      newRow.access_token = wTokenResp.access_token :=
  C8_refresh_token_never_nulled wTokens "default" wTokenResp 0
    ⟨"oldAccess", some "oldRefresh", none, none, none⟩ (by decide)

/-- Observable outcome of `getOuraAccessToken`: the returned token (`none`
models the function throwing), the in-memory cache afterwards, and whether a
refresh exchange was attempted. -/
structure TokenOutcome where
  result : Option String
  newCache : Option (String × ℚ)
  refreshAttempted : Bool
deriving DecidableEq

/-- The in-memory cache check:
`tokenCache && tokenCache.expiresAt > Date.now() + 60_000`. -/
def cacheHit (cache : Option (String × ℚ)) (nowMs : ℚ) : Bool :=
  match cache with
  | some c => decide (c.2 > nowMs + 60000)
  | none => false

/-- Source `getOuraAccessToken`, with the network refresh modelled by the
`refreshExchange` oracle (`none` = the exchange throws) and the store read
passed in as `row`.  The refresh path additionally persists the refreshed
pair through `upsertOauthToken`; only the in-memory observables are returned
here.  `hasValidAccess` mirrors
`accessToken && expires_at !== null && Number.isFinite(expires_at)
  ? expires_at > now + 60_000 : !!accessToken` —
a NULL or non-finite expiry falls through to string truthiness. -/
def getOuraAccessToken (cache : Option (String × ℚ)) (row : Option OuraTokenRow)
    (pat : Option String) (nowMs : ℚ)
    (refreshExchange : String → Option (String × Option JsNum)) : TokenOutcome :=
  if cacheHit cache nowMs then
    ⟨some (cache.getD ("", 0)).1, cache, false⟩
  else
    match row with
    | none =>
      match pat with
      | some patTok => ⟨some patTok, some (patTok, nowMs + 86400000), false⟩
      | none => ⟨none, cache, false⟩
    | some r =>
      let hasValidAccess : Bool :=
        if r.access_token ≠ "" then
          match r.expires_at with
          | some (.fin e) => decide (e > nowMs + 60000)
          | _ => true
        else false
      if hasValidAccess ∧ r.access_token ≠ "" then
        ⟨some r.access_token,
         some (r.access_token,
           match r.expires_at with
           | some (.fin e) => e
           | _ => nowMs + 3600000),
         false⟩
      else
        match r.refresh_token with
        | some rt =>
          match refreshExchange rt with
          | none => ⟨none, cache, true⟩
          | some (newTok, expIn) =>
            ⟨some newTok,
             some (newTok,
               match expIn with
               | some (.fin q) => nowMs + max 0 (q - 60) * 1000
               | _ => nowMs + 3600000),
             true⟩
        | none =>
          match pat with
          | some patTok => ⟨some patTok, some (patTok, nowMs + 86400000), false⟩
          | none => ⟨none, cache, false⟩

/-- Claim C10: a stored credential row with a NULL (or non-finite) expiry and
a non-empty access token is treated as valid — `getOuraAccessToken` returns
that token without attempting a refresh and caches it with a one-hour
in-memory TTL; a missing expiry is never treated as expired. -/
theorem C10_null_expiry_is_valid (cache : Option (String × ℚ))
    (pat : Option String) (nowMs : ℚ)
    (refreshExchange : String → Option (String × Option JsNum)) (r : OuraTokenRow)
    (hcache : cacheHit cache nowMs = false)
    (hacc : r.access_token ≠ "")
    (hexp : r.expires_at = none ∨ r.expires_at = some .nonfin) :
    getOuraAccessToken cache (some r) pat nowMs refreshExchange =
      ⟨some r.access_token, some (r.access_token, nowMs + 3600000), false⟩ := by
  rcases hexp with hexp | hexp
  · simp [getOuraAccessToken, hcache, hacc, hexp]
  · simp [getOuraAccessToken, hcache, hacc, hexp]

/-- Witness for C10 at a concrete row with NULL expiry. -/
theorem C10_null_expiry_is_valid_witness :
    getOuraAccessToken none (some ⟨"tok", some "ref", none, none, none⟩) none 0
        (fun _ => none) =
      ⟨some "tok", some ("tok", 3600000), false⟩ := by
  have h := C10_null_expiry_is_valid none none 0 (fun _ => none)
    ⟨"tok", some "ref", none, none, none⟩ rfl (by decide) (Or.inl rfl)
  simpa using h

/-- ASCII word character of the JS regex `\w` / `\b` classes. -/
def wordChar (c : Char) : Bool :=
  ('a' ≤ c ∧ c ≤ 'z') ∨ ('A' ≤ c ∧ c ≤ 'Z') ∨ ('0' ≤ c ∧ c ≤ '9') ∨ c = '_'

/-- ASCII lower-casing, as the `/i` regex flag needs. -/
def toLowerAscii (c : Char) : Char :=
  if 'A' ≤ c ∧ c ≤ 'Z' then Char.ofNat (c.toNat + 32) else c

/-- Text after the first newline (the tail `slice(idx + 1)` of a `--` line
comment); `none` when the comment runs to the end of input. -/
def afterNewline : List Char → Option (List Char)
  | [] => none
  | '\n' :: rest => some rest
  | _ :: rest => afterNewline rest

/-- Text after the first closing block-comment marker; `none` when there is
no closing marker before the end of input. -/
def afterBlockEnd : List Char → Option (List Char)
  | [] => none
  | '*' :: '/' :: rest => some rest
  | _ :: rest => afterBlockEnd rest

/-- Source `stripLeadingSqlComments` loop: repeatedly trim leading
whitespace, then drop a leading `--` line comment (or return the empty string
when it has no newline) or a leading block comment (or the empty string when
unterminated).  Each iteration strictly shortens the text, so the fuel
`length + 1` is never exhausted. -/
def stripGo : ℕ → List Char → List Char
  | 0, s => s
  | fuel + 1, s =>
    let t := s.dropWhile (fun c => isJsSpace c)
    if t.take 2 = ['-', '-'] then
      match afterNewline t with
      | none => []
      | some rest => stripGo fuel rest
    else if t.take 2 = ['/', '*'] then
      match afterBlockEnd t with
      | none => []
      | some rest => stripGo fuel rest
    else t

def stripLeadingSqlComments (s : List Char) : List Char := stripGo (s.length + 1) s

/-- The regex replace `\s+` → single space: collapses every whitespace run.
The flag records whether the previous character was part of a run. -/
def collapseWsGo : Bool → List Char → List Char
  | _, [] => []
  | prevWs, c :: rest =>
    if isJsSpace c then
      if prevWs then collapseWsGo true rest
      else ' ' :: collapseWsGo true rest
    else c :: collapseWsGo false rest

def collapseWs (s : List Char) : List Char := collapseWsGo false s

/-- JS `trim` (ASCII whitespace portion). -/
def trimWs (s : List Char) : List Char :=
  ((s.dropWhile (fun c => isJsSpace c)).reverse.dropWhile (fun c => isJsSpace c)).reverse

/-- The normalized statement:
`stripLeadingSqlComments(sql).replace(/\s+/g, ' ').trim()`. -/
def normalizeSql (s : List Char) : List Char :=
  trimWs (collapseWs (stripLeadingSqlComments s))

/-- Case-insensitive prefix match of a lowercase keyword. -/
def matchesKw : List Char → List Char → Bool
  | [], _ => true
  | _ :: _, [] => false
  | k :: ks, c :: cs => toLowerAscii c = k ∧ matchesKw ks cs

/-- A word boundary next to the given neighbouring character (`none` = edge
of the text). -/
def boundaryB : Option Char → Bool
  | none => true
  | some c => ! wordChar c

/-- Scan for a word-bounded, case-insensitive occurrence of the keyword
(`\bkw\b/i`); `prev` is the character before the current position. -/
def containsWordGo (kw : List Char) : Option Char → List Char → Bool
  | _, [] => false
  | prev, c :: rest =>
    (boundaryB prev && matchesKw kw (c :: rest) &&
      boundaryB ((c :: rest).drop kw.length).head?) ||
    containsWordGo kw (some c) rest

def containsWord (kw : List Char) (s : List Char) : Bool := containsWordGo kw none s

/-- The anchored `/^(select|with)\b/i` test. -/
def startsWithReadKw (s : List Char) : Bool :=
  (matchesKw ("select".toList) s && boundaryB (s.drop 6).head?) ||
  (matchesKw ("with".toList) s && boundaryB (s.drop 4).head?)

/-- The disallowed mutation / schema / pragma / transaction keywords. -/
def bannedKeywords : List (List Char) :=
  [ "insert".toList, "update".toList, "delete".toList, "drop".toList,
    "alter".toList, "create".toList, "replace".toList, "vacuum".toList,
    "pragma".toList, "attach".toList, "detach".toList]

/-- Source `isReadOnlySql`: empty input fails; the normalized statement must
begin with a read-only clause keyword, contain no statement separator, not
reference either credential-bearing table by name anywhere, and contain no
disallowed keyword anywhere. -/
def isReadOnlySql (sql : List Char) : Bool :=
  if sql = [] then false
  else
    let normalized := normalizeSql sql
    if ¬ startsWithReadKw normalized then false
    else if normalized.contains ';' then false
    else if containsWord ("oura_oauth_tokens".toList) normalized then false
    else if containsWord ("oura_oauth_states".toList) normalized then false
    else ! bannedKeywords.any (fun kw => containsWord kw normalized)

/-- Claim C9: `validate(sql)` accepts `SELECT * FROM daily_summaries` and
rejects: a statement that (after stripping leading comments and normalizing)
does not begin with a read-only clause keyword; any statement containing a
statement separator (`SELECT 1; DROP TABLE x`); any statement in which a
disallowed keyword occurs as a word anywhere (`DROP TABLE x`); and any
statement referencing either credential-bearing table — in this code base
named `oura_oauth_tokens` and `oura_oauth_states` — anywhere, regardless of
clause position. -/
theorem C9_isReadOnlySql_validation :
    isReadOnlySql ("SELECT * FROM daily_summaries".toList) = true ∧
    isReadOnlySql ("DROP TABLE x".toList) = false ∧
    isReadOnlySql ("SELECT 1; DROP TABLE x".toList) = false ∧
    isReadOnlySql ("SELECT * FROM oura_oauth_tokens".toList) = false ∧
    isReadOnlySql ("SELECT * FROM oura_oauth_states".toList) = false ∧
    (∀ s : List Char, startsWithReadKw (normalizeSql s) = false →
      isReadOnlySql s = false) ∧
    (∀ s : List Char, (normalizeSql s).contains ';' = true →
      isReadOnlySql s = false) ∧
    (∀ (s kw : List Char), kw ∈ bannedKeywords →
      containsWord kw (normalizeSql s) = true → isReadOnlySql s = false) ∧
    (∀ s : List Char, containsWord ("oura_oauth_tokens".toList) (normalizeSql s) = true →
      isReadOnlySql s = false) ∧
    (∀ s : List Char, containsWord ("oura_oauth_states".toList) (normalizeSql s) = true →
      isReadOnlySql s = false) := by
  refine ⟨by decide, by decide, by decide, by decide, by decide, ?_, ?_, ?_, ?_, ?_⟩
  · intro s h
    simp only [isReadOnlySql]
    split_ifs with h1 h2 <;> simp_all
  · intro s h
    simp only [isReadOnlySql]
    split_ifs <;> simp_all
  · intro s kw hmem h
    simp only [isReadOnlySql]
    split_ifs <;> try rfl
    simp only [Bool.not_eq_false', List.any_eq_true]
    exact ⟨kw, hmem, h⟩
  · intro s h
    simp only [isReadOnlySql]
    split_ifs <;> simp_all
  · intro s h
    simp only [isReadOnlySql]
    split_ifs <;> simp_all

/-- Witness for C9: the general rejection clauses applied at the concrete
rejected statements. -/
theorem C9_isReadOnlySql_validation_witness :
    isReadOnlySql ("DROP TABLE x".toList) = false ∧
    isReadOnlySql ("SELECT 1; DROP TABLE x".toList) = false ∧
    isReadOnlySql ("SELECT * FROM oura_oauth_tokens".toList) = false :=
  ⟨C9_isReadOnlySql_validation.2.2.2.2.2.1 ("DROP TABLE x".toList) (by decide),
   C9_isReadOnlySql_validation.2.2.2.2.2.2.1 ("SELECT 1; DROP TABLE x".toList) (by decide),
   C9_isReadOnlySql_validation.2.2.2.2.2.2.2.2.1 ("SELECT * FROM oura_oauth_tokens".toList)
     (by decide)⟩

end OuraCF
